import Mathlib

/-!
Verification of the M32 chatbot backend's intent router, confidence scorer,
flight agent and flight-parameter extractor.

The development is a shallow embedding of the TypeScript sources:

* `src/services/agentRouter.service.ts` — confidence scorers, conversation
  state tracker, dynamic threshold, score floors, agent selection, history.
* `src/services/flightAgent.service.ts` — multi-route guard and
  `processFlightQuery` (external AI / search calls become oracle inputs).
* the flight planner utilities (`extractFlightParams`, `normalizeDate`,
  `extractMonthNameDates`, `extractCityAirports`, `searchFlights`).

Strings are modelled as `List Char`; JavaScript regular expressions are
translated into dedicated scanning functions (each is annotated with the
regex it implements).  JavaScript numbers are modelled as exact rationals,
`parseInt` results as `Option ℤ` (with `none` playing the role of `NaN`),
and `new Date()` as an explicit `Now` parameter (calendar arithmetic uses
the standard civil-calendar day-numbering, matching the ECMAScript day
ordering of `Date` values).
-/

namespace M32

abbrev Str := List Char

/-- `String.toList` shorthand used to write embedded string constants. -/
def L (s : String) : Str := s.toList

/-- The apostrophe character (several source keywords contain it). -/
def apoC : Char := Char.ofNat 39

/-- ASCII lower-casing of one character, as `String.prototype.toLowerCase`
acts on the ASCII inputs of this code base. -/
def lowerC (c : Char) : Char :=
  if 'A' ≤ c ∧ c ≤ 'Z' then Char.ofNat (c.toNat + 32) else c

/-- `toLowerCase` on a whole string. -/
def lowerS (s : Str) : Str := s.map lowerC

/-- JavaScript `\w`: ASCII letters, digits and underscore. -/
def isWordChar (c : Char) : Bool :=
  (('a' ≤ c ∧ c ≤ 'z') ∨ ('A' ≤ c ∧ c ≤ 'Z') ∨ ('0' ≤ c ∧ c ≤ '9') ∨ c = '_' : Bool)

/-- JavaScript `\s` restricted to the ASCII whitespace the sources can see. -/
def isSpaceJS (c : Char) : Bool :=
  c == ' ' || c == '\t' || c == '\n' || c == '\r' || c == Char.ofNat 11 || c == Char.ofNat 12

/-- ASCII decimal digit test (JavaScript `\d`). -/
def isDigitJS (c : Char) : Bool := '0' ≤ c ∧ c ≤ '9'

/-- ASCII uppercase letter test (the `[A-Z]` character class). -/
def isUpperJS (c : Char) : Bool := 'A' ≤ c ∧ c ≤ 'Z'

/-- ASCII letter test (the case-insensitive `[A-Z]` class). -/
def isAlphaJS (c : Char) : Bool := ('a' ≤ c ∧ c ≤ 'z') ∨ ('A' ≤ c ∧ c ≤ 'Z')

/-- Does `pre` occur at the very start of `s`? -/
def isPrefix : Str → Str → Bool
  | [], _ => true
  | _ :: _, [] => false
  | p :: ps, c :: cs => p == c && isPrefix ps cs

/-- JavaScript `String.prototype.includes`: contiguous substring test. -/
def containsSub (hay needle : Str) : Bool :=
  match hay with
  | [] => isPrefix needle []
  | _ :: rest => isPrefix needle hay || containsSub rest needle

/-- `trim`: strip leading and trailing whitespace. -/
def trimJS (s : Str) : Str :=
  ((s.dropWhile (fun c => isSpaceJS c)).reverse.dropWhile (fun c => isSpaceJS c)).reverse

/-- `split(sep)` for a single-character separator, JavaScript style
(adjacent separators produce empty fields). -/
def splitOnPred (p : Char → Bool) (s : Str) : List Str :=
  match s with
  | [] => [[]]
  | c :: rest =>
    let tail := splitOnPred p rest
    if p c then [] :: tail
    else
      match tail with
      | [] => [[c]]
      | t :: ts => (c :: t) :: ts

/-- `Array.prototype.join(sep)`. -/
def joinSep (sep : Str) : List Str → Str
  | [] => []
  | [x] => x
  | x :: rest => x ++ sep ++ joinSep sep rest

/-- `Array.prototype.slice(-n)`: the last `n` elements. -/
def lastN (n : ℕ) (l : List α) : List α := l.drop (l.length - n)

/-- Word-boundary-delimited case-sensitive occurrence of one of `alts`
somewhere in `s`, i.e. the test of `/\b(a₁|a₂|…)\b/` for alternatives that
begin and end with word characters.  `prevWord` records whether the
character before the current position is a word character. -/
def wordAltHereOpt (alts : List Str) (prevWord : Bool) (s : Str) : Option Str :=
  if prevWord then none
  else alts.findSome? fun a =>
    if isPrefix a s then
      match s.drop a.length with
      | [] => some a
      | c :: _ => if isWordChar c then none else some a
    else none

/-- Leftmost word-bounded match of one of `alts` (tried in order at each
position), returning the alternative that matched. -/
def findWordAlt (alts : List Str) : Bool → Str → Option Str
  | _, [] => none
  | prevWord, c :: rest =>
    match wordAltHereOpt alts prevWord (c :: rest) with
    | some a => some a
    | none => findWordAlt alts (isWordChar c) rest

/-- The test `/\b(a₁|…)\b/i` applied to `s`: the alternatives are given in
lower case and `s` is lowered before matching. -/
def testWordAltCI (alts : List Str) (s : Str) : Bool :=
  (findWordAlt alts false (lowerS s)).isSome

/-- The test of an alternation of plain substrings, case-insensitively
(`/p₁|p₂|…/i` with no word boundaries). -/
def testSubAltCI (alts : List Str) (s : Str) : Bool :=
  alts.any fun a => containsSub (lowerS s) a

/-! ## Confidence scorer (`agentRouter.service.ts`) -/

/-- The keyword groups and weights of `calculateFlightConfidence`. -/
def flightKeywordGroups : List (List Str × ℚ) :=
  [ ([L "flight", L "flights", L "fly", L "flying"], 4/10),
    ([L "airport", L "departure", L "arrival", L "layover", L "stopover"], 35/100),
    ([L "ticket", L "booking", L "book", L "reserve"], 3/10),
    ([L "airline", L "airways", L "air india", L "indigo", L "spicejet"], 35/100),
    ([L "round trip", L "one way", L "return flight", L "direct flight"], 4/10),
    ([L "travel", L "trip", L "journey"], 3/10),
    ([L "destination", L "going to", L "want to go"], 25/100),
    ([L "from", L "to", L "departure", L "arrival"], 2/10) ]

/-- Weight contributed by one keyword group: the group weight if any of its
keywords occurs in the lowered message (the inner loop `break`s after the
first hit, so a group counts at most once). -/
def groupScore (lower : Str) (g : List Str × ℚ) : ℚ :=
  if g.1.any (fun k => containsSub lower k) then g.2 else 0

/-- City alternation of `hasCityMentions` (`/\b(mumbai|…)\b/i`). -/
def routerCityAlts : List Str :=
  [L "mumbai", L "delhi", L "bangalore", L "goa", L "chennai", L "kolkata",
   L "hyderabad", L "surat", L "pune", L "ahmedabad", L "jaipur", L "lucknow",
   L "kochi", L "cochin", L "thiruvananthapuram", L "trivandrum", L "chandigarh",
   L "coimbatore", L "vadodara", L "baroda", L "indore", L "nagpur",
   L "visakhapatnam", L "bhubaneswar", L "patna", L "ranchi", L "udaipur",
   L "amritsar", L "srinagar", L "guwahati", L "imphal", L "agartala", L "varanasi"]

/-- `hasCityMentions`. -/
def hasCityMentions (message : Str) : Bool := testWordAltCI routerCityAlts message

/-- Test of `/\d{1,2}[-\/]\d{1,2}[-\/]?\d{0,4}/` — since the trailing
`[-\/]?\d{0,4}` can match the empty string, the pattern matches iff one or
two digits are followed by a separator and a further digit. -/
def testNumericDateToken : Str → Bool
  | [] => false
  | c :: rest =>
    (isDigitJS c &&
      (match rest with
       | d :: e :: f :: _ =>
         (isDigitJS d && (e == '-' || e == '/') && isDigitJS f) ||
         ((d == '-' || d == '/') && isDigitJS e)
       | d :: e :: _ => (d == '-' || d == '/') && isDigitJS e
       | _ => false)) ||
    testNumericDateToken rest

/-- Month-name alternation used in several date tests. -/
def monthWordAlts : List Str :=
  [L "january", L "february", L "march", L "april", L "may", L "june", L "july",
   L "august", L "september", L "october", L "november", L "december",
   L "jan", L "feb", L "mar", L "apr", L "may", L "jun", L "jul", L "aug",
   L "sep", L "sept", L "oct", L "nov", L "dec"]

/-- `hasDateMentions`: numeric token, month name, or a relative-day phrase. -/
def hasDateMentions (message : Str) : Bool :=
  testNumericDateToken message ||
  testWordAltCI monthWordAlts message ||
  testWordAltCI [L "tomorrow", L "today", L "next week", L "next month"] message

/-- `hasTravelIntent` (a list of case-insensitive substring tests). -/
def hasTravelIntent (message : Str) : Bool :=
  testSubAltCI
    [L "want to go", L "planning to", L "need to", L "looking for",
     L "search for", L "find flights"] message

/-- `hasUrgencyWords`. -/
def hasUrgencyWords (message : Str) : Bool :=
  [L "urgent", L "asap", L "immediately", L "quickly", L "fast", L "soon"].any
    fun w => containsSub (lowerS message) w

/-- `calculateFlightConfidence`. -/
def calculateFlightConfidence (message : Str) : ℚ :=
  let lower := lowerS message
  let base := flightKeywordGroups.foldl (fun acc g => acc + groupScore lower g) 0
  let m1 : ℚ := if hasCityMentions message then 13/10 else 1
  let m2 : ℚ := if hasDateMentions message then 12/10 else 1
  let m3 : ℚ := if hasTravelIntent message then 14/10 else 1
  let m4 : ℚ := if message.contains '?' then 11/10 else 1
  let m5 : ℚ := if hasUrgencyWords message then 12/10 else 1
  let s1 := base * (1 * m1 * m2 * m3 * m4 * m5)
  let s2 :=
    if [L "train", L "bus", L "car", L "drive", L "walk"].any
        (fun k => containsSub lower k)
    then s1 * (7/10) else s1
  let s3 :=
    if testSubAltCI
        [L "show", L "find", L "search", L "look", L "check", L "available",
         L "availability"] message
    then s2 + 1/10 else s2
  min s3 1

/-- Keyword groups of `calculatePersonalConfidence` (all three tables: the
statement patterns, the personal-info queries and the greeting groups; the
code sums them in that order, which is immaterial for the total). -/
def personalInfoPatternGroups : List (List Str × ℚ) :=
  [ ([L "my name is", L "i am", L "i" ++ [apoC] ++ L "m", L "call me",
      L "i" ++ [apoC] ++ L "m called"], 7/10),
    ([L "my age is", L "i am", L "years old", L "i" ++ [apoC] ++ L "m",
      L "aged"], 6/10),
    ([L "i live in", L "i" ++ [apoC] ++ L "m from", L "from", L "i reside in",
      L "i stay in"], 6/10),
    ([L "i work as", L "i am a", L "my job", L "i do",
      L "i" ++ [apoC] ++ L "m employed as"], 6/10),
    ([L "my email", L "my phone", L "my number", L "contact me at"], 6/10) ]

def personalInfoQueryGroups : List (List Str × ℚ) :=
  [ ([L "what is my name", L "what" ++ [apoC] ++ L "s my name", L "my name",
      L "do you know my name"], 6/10),
    ([L "who am i", L "what do you know about me", L "tell me about myself"], 6/10),
    ([L "where am i from", L "where do i live", L "my location"], 6/10),
    ([L "how old am i", L "what is my age", L "my age"], 6/10),
    ([L "what do i do", L "my job", L "my work", L "my occupation"], 5/10) ]

def personalKeywordGroups : List (List Str × ℚ) :=
  [ ([L "hello", L "hi", L "hey", L "greetings", L "good morning",
      L "good afternoon", L "good evening"], 5/10),
    ([L "how are you", L "what" ++ [apoC] ++ L "s up", L "sup",
      L "how do you do"], 5/10),
    ([L "help", L "assist", L "support", L "can you help"], 3/10),
    ([L "thank", L "thanks", L "appreciate", L "grateful"], 4/10),
    ([L "who are you", L "what can you do", L "your name", L "what are you"], 5/10),
    ([L "tell me about", L "explain", L "what is", L "describe"], 3/10) ]

/-- Word count of `message.trim().split(' ').length`. -/
def wordCountJS (message : Str) : ℕ := (splitOnPred (fun c => c == ' ') (trimJS message)).length

/-- `calculatePersonalConfidence`. -/
def calculatePersonalConfidence (message : Str) : ℚ :=
  let lower := lowerS message
  let base :=
    (personalInfoPatternGroups.foldl (fun acc g => acc + groupScore lower g) 0) +
    (personalInfoQueryGroups.foldl (fun acc g => acc + groupScore lower g) 0) +
    (personalKeywordGroups.foldl (fun acc g => acc + groupScore lower g) 0)
  let s1 :=
    if wordCountJS message ≤ 3 ∧
        ¬ testSubAltCI [L "flight", L "fly", L "book"] message
    then base + 3/10 else base
  let s2 :=
    if message.contains '?' ∧
        ¬ testSubAltCI [L "flight", L "fly", L "book", L "airport"] message
    then s1 + 2/10 else s1
  let s3 :=
    if testSubAltCI
        [L "flight", L "fly", L "book", L "airport", L "departure", L "arrival"]
        message
    then s2 * (8/10) else s2
  min s3 1

/-! ## Conversation state tracker -/

structure HistEntry where
  role : Str
  message : Str
deriving DecidableEq, Repr

/-- Flight-continuation keyword set of `isOngoingFlightConversation`. -/
def flightContextKeywords : List Str :=
  [L "flight", L "fly", L "airport", L "departure", L "arrival", L "destination",
   L "return date", L "one-way", L "round-trip", L "booking", L "travel date",
   L "when would you like", L "where are you flying", L "provide a date",
   L "need to know", L "departure date", L "which date", L "searching for",
   L "found flights", L "flight options", L "book a flight", L "flight details"]

/-- Test of `/\d{1,2}[-\/]\d{1,2}/`. -/
def testShortNumericDate : Str → Bool
  | [] => false
  | c :: rest =>
    (isDigitJS c &&
      (match rest with
       | d :: e :: f :: _ =>
         (isDigitJS d && (e == '-' || e == '/') && isDigitJS f) ||
         ((d == '-' || d == '/') && isDigitJS e)
       | d :: e :: _ => (d == '-' || d == '/') && isDigitJS e
       | _ => false)) ||
    testShortNumericDate rest

/-- Month-abbreviation alternation `\b(jan|feb|…|dec)\b`. -/
def monthAbbrevAlts : List Str :=
  [L "jan", L "feb", L "mar", L "apr", L "may", L "jun", L "jul", L "aug",
   L "sep", L "oct", L "nov", L "dec"]

/-- `isOngoingFlightConversation`. -/
def isOngoingFlightConversation (history : List HistEntry) : Bool :=
  if history.length < 2 then false
  else
    let recent := lastN 6 history
    let recentText := joinSep (L " ") (recent.map fun e => lowerS e.message)
    let hasFlightKeywords := flightContextKeywords.any fun k => containsSub recentText k
    let aiAsked := recent.any fun e =>
      e.role == L "assistant" &&
      ([L "departure", L "arrival", L "date", L "when", L "where",
        L "destination", L "return", L "flight"].any fun k =>
          containsSub (lowerS e.message) k)
    let userProvided := recent.any fun e =>
      e.role == L "user" &&
      (containsSub (lowerS e.message) (L "from") ||
       containsSub (lowerS e.message) (L "to") ||
       testShortNumericDate e.message ||
       testWordAltCI monthAbbrevAlts e.message)
    hasFlightKeywords || aiAsked || userProvided

/-- `isOngoingPersonalConversation`. -/
def isOngoingPersonalConversation (history : List HistEntry) : Bool :=
  if history.length < 2 then false
  else
    let recent := lastN 4 history
    let recentText := joinSep (L " ") (recent.map fun e => lowerS e.message)
    let hasPersonalKeywords :=
      [L "hello", L "hi", L "hey", L "how are you", L "what" ++ [apoC] ++ L "s up",
       L "my name", L "i am", L "i" ++ [apoC] ++ L "m", L "tell me about",
       L "who are you", L "help", L "assist", L "support", L "thank",
       L "thanks"].any fun k => containsSub recentText k
    let aiAsked := recent.any fun e =>
      e.role == L "assistant" &&
      ([L "your name", L "tell me about yourself", L "how can i help",
        L "personal"].any fun k => containsSub (lowerS e.message) k)
    hasPersonalKeywords || aiAsked

/-! ## Dynamic threshold, score floors and agent selection -/

/-- `getDynamicThreshold`. -/
def getDynamicThreshold (flightScore personalScore : ℚ) : ℚ :=
  let baseThreshold : ℚ := 3/10
  let scoreDifference := |flightScore - personalScore|
  if scoreDifference < 1/10 then 1/2
  else if scoreDifference > 3/10 then 1/4
  else baseThreshold

/-- The flight-score floor applied when a flight conversation is ongoing
(`flightScore = Math.max(flightScore, 0.7)`). -/
def boostFlightScore (inFlightConversation : Bool) (s : ℚ) : ℚ :=
  if inFlightConversation then max s (7/10) else s

/-- The personal-score floor (`personalScore = Math.max(personalScore, 0.6)`). -/
def boostPersonalScore (inPersonalConversation : Bool) (s : ℚ) : ℚ :=
  if inPersonalConversation then max s (6/10) else s

inductive Agent where
  | flight
  | personal
deriving DecidableEq, Repr

/-- The routing decision of `chat` (lines 104–108): flight iff the flight
score meets the dynamic threshold and strictly exceeds the personal score. -/
def selectAgent (flightScore personalScore : ℚ) : Agent :=
  if flightScore ≥ getDynamicThreshold flightScore personalScore ∧
      flightScore > personalScore
  then Agent.flight else Agent.personal

/-- The complete routing pipeline of `chat` for a given history and message:
raw scores, conversation-state floors, dynamic threshold, selection. -/
def routeFor (history : List HistEntry) (message : Str) : Agent :=
  let flightScore :=
    boostFlightScore (isOngoingFlightConversation history)
      (calculateFlightConfidence message)
  let personalScore :=
    boostPersonalScore (isOngoingPersonalConversation history)
      (calculatePersonalConfidence message)
  selectAgent flightScore personalScore

/-! ## Numbers, `parseInt`, rendering -/

/-- Leading decimal digits of a string. -/
def leadingDigits (s : Str) : Str := s.takeWhile fun c => isDigitJS c

/-- Numeric value of a digit string. -/
def digitsToNat (s : Str) : ℕ := s.foldl (fun acc c => acc * 10 + (c.toNat - 48)) 0

/-- JavaScript `parseInt(s)` (base 10): skip whitespace, optional sign,
then leading digits; `none` models `NaN`. -/
def parseIntJS (s : Str) : Option ℤ :=
  let t := s.dropWhile fun c => isSpaceJS c
  match t with
  | '-' :: rest =>
    if (leadingDigits rest).isEmpty then none
    else some (-(digitsToNat (leadingDigits rest) : ℤ))
  | '+' :: rest =>
    if (leadingDigits rest).isEmpty then none
    else some ((digitsToNat (leadingDigits rest) : ℤ))
  | _ =>
    if (leadingDigits t).isEmpty then none
    else some ((digitsToNat (leadingDigits t) : ℤ))

/-- `x > k` on a `parseInt` result: any comparison with `NaN` is false. -/
def jsGtNum (x : Option ℤ) (k : ℤ) : Bool :=
  match x with
  | some v => v > k
  | none => false

/-- `x < k` on a `parseInt` result: any comparison with `NaN` is false. -/
def jsLtNum (x : Option ℤ) (k : ℤ) : Bool :=
  match x with
  | some v => v < k
  | none => false

def digitChar (n : ℕ) : Char := Char.ofNat (48 + n)

def natDigitsAux : ℕ → ℕ → Str
  | 0, _ => []
  | fuel + 1, n =>
    if n < 10 then [digitChar n]
    else natDigitsAux fuel (n / 10) ++ [digitChar (n % 10)]

/-- Decimal rendering of a natural number (`Number.prototype.toString`). -/
def natToChars (n : ℕ) : Str := natDigitsAux (n + 1) n

/-- Decimal rendering of an integer. -/
def intToChars (i : ℤ) : Str :=
  if i < 0 then '-' :: natToChars (-i).toNat else natToChars i.toNat

/-- Rendering of a `parseInt` result (`NaN` renders as `"NaN"`). -/
def jsNumToChars : Option ℤ → Str
  | none => L "NaN"
  | some i => intToChars i

/-- `padStart(2, '0')`. -/
def padStart2 (s : Str) : Str :=
  if s.length ≥ 2 then s else if s.length = 1 then '0' :: s else ['0', '0']

/-- Pad a rendered year to four characters (as `toISOString` does). -/
def pad4 (s : Str) : Str :=
  if s.length ≥ 4 then s else List.replicate (4 - s.length) '0' ++ s

/-! ## Civil calendar and the ECMAScript `Date` ordering

`new Date(y, mIdx, d)` normalizes an out-of-range month index into the
year and an out-of-range day linearly into adjacent months; two `Date`
values compare by their time value, i.e. by civil day number (plus the
time of day).  `daysFromCivil`/`civilFromDays` are the standard
proleptic-Gregorian day-numbering bijection (days since 1970-01-01). -/

def daysFromCivil (y m d : ℤ) : ℤ :=
  let y2 := y - (if m ≤ 2 then 1 else 0)
  let era := y2 / 400
  let yoe := y2 - era * 400
  let mp := (m + 9) % 12
  let doy := (153 * mp + 2) / 5 + d - 1
  let doe := yoe * 365 + yoe / 4 - yoe / 100 + doy
  era * 146097 + doe - 719468

def civilFromDays (z0 : ℤ) : ℤ × ℤ × ℤ :=
  let z := z0 + 719468
  let era := z / 146097
  let doe := z - era * 146097
  let yoe := (doe - doe / 1460 + doe / 36524 - doe / 146096) / 365
  let y := yoe + era * 400
  let doy := doe - (365 * yoe + yoe / 4 - yoe / 100)
  let mp := (5 * doy + 2) / 153
  let d := doy - (153 * mp + 2) / 5 + 1
  let m := mp + (if mp < 10 then 3 else -9)
  (y + (if m ≤ 2 then 1 else 0), m, d)

/-- Day number of `new Date(y, mIdx, d)` (0-based month index, arbitrary
overflow in both month and day, exactly as ECMAScript normalizes them). -/
def jsDateDay (y mIdx d : ℤ) : ℤ :=
  daysFromCivil (y + mIdx / 12) (mIdx % 12 + 1) d

/-- The current moment (`new Date()`): today's civil date plus a flag
telling whether the time of day is strictly past local midnight. -/
structure Now where
  year : ℤ
  month : ℤ
  day : ℤ
  pastMidnight : Bool
deriving DecidableEq, Repr

def nowDayNumber (now : Now) : ℤ := daysFromCivil now.year now.month now.day

/-- `new Date(y, mIdx, d) < today`: the constructed midnight instant is
before the current moment. -/
def jsDateLtNow (y mIdx d : ℤ) (now : Now) : Bool :=
  jsDateDay y mIdx d < nowDayNumber now ||
  (jsDateDay y mIdx d == nowDayNumber now && now.pastMidnight)

/-- Render a civil triple as `toISOString().split('T')[0]` does. -/
def isoOfTriple (t : ℤ × ℤ × ℤ) : Str :=
  pad4 (intToChars t.1) ++ ['-'] ++ padStart2 (intToChars t.2.1) ++ ['-'] ++
    padStart2 (intToChars t.2.2)

/-! ## `normalizeDate` (flight planner) -/

/-- Test of `/^\d{4}-\d{2}-\d{2}$/`. -/
def isIsoDate (s : Str) : Bool :=
  match s with
  | [a, b, c, d, e, f, g, h, i, j] =>
    isDigitJS a && isDigitJS b && isDigitJS c && isDigitJS d && e == '-' &&
    isDigitJS f && isDigitJS g && h == '-' && isDigitJS i && isDigitJS j
  | _ => false

/-- The day/month disambiguation shared by the two- and three-part
branches of `normalizeDate`: whichever part exceeds 12 is the day; if
neither does, the first part is the day.  Returns `(day, month)`. -/
def dayMonthOf (first second : Option ℤ) : Option ℤ × Option ℤ :=
  if jsGtNum first 12 then (first, second)
  else if jsGtNum second 12 then (second, first)
  else (first, second)

/-- The `parts.length === 2` branch of `normalizeDate`. -/
def normalizeTwoPart (now : Now) (first second : Option ℤ) : Str :=
  let dm := dayMonthOf first second
  let day := dm.1
  let month := dm.2
  let lt :=
    match month, day with
    | some m, some d => jsDateLtNow now.year (m - 1) d now
    | _, _ => false
  let year := now.year + (if lt then 1 else 0)
  intToChars year ++ ['-'] ++ padStart2 (jsNumToChars month) ++ ['-'] ++
    padStart2 (jsNumToChars day)

/-- The `parts.length === 3` branch of `normalizeDate` (short years below
100 are promoted by adding 2000; no roll-forward happens here). -/
def normalizeThreePart (first second year : Option ℤ) : Str :=
  let yearNum := if jsLtNum year 100 then year.map (· + 2000) else year
  let dm := dayMonthOf first second
  jsNumToChars yearNum ++ ['-'] ++ padStart2 (jsNumToChars dm.2) ++ ['-'] ++
    padStart2 (jsNumToChars dm.1)

/-- `normalizeDate` of the flight planner. -/
def normalizeDate (now : Now) (dateStr : Str) : Str :=
  if isIsoDate dateStr then dateStr
  else
    match splitOnPred (fun c => c == '/' || c == '-') dateStr with
    | [p1, p2] => normalizeTwoPart now (parseIntJS p1) (parseIntJS p2)
    | [p1, p2, p3] => normalizeThreePart (parseIntJS p1) (parseIntJS p2) (parseIntJS p3)
    | _ => dateStr

/-! ## Generic regex-style scanning -/

/-- Global scanning in the style of a `g`-flagged regex: at each position
try `matchAt` (which receives a flag telling whether the previous
character is a word character, for leading `\b` assertions, and returns
the decoded match plus the remainder of the string); on success continue
after the match, otherwise advance one character.  Every matcher used
below consumes at least one character and ends its match in a word
character, so the fuel `s.length + 1` is never exhausted and the
post-match boundary flag is `true`. -/
def scanGlobal (matchAt : Bool → Str → Option (α × Str)) :
    ℕ → Bool → Str → List α
  | 0, _, _ => []
  | _ + 1, _, [] => []
  | fuel + 1, prevWord, c :: rest =>
    match matchAt prevWord (c :: rest) with
    | some (a, after) => a :: scanGlobal matchAt fuel true after
    | none => scanGlobal matchAt fuel (isWordChar c) rest

/-- First match of an un-flagged regex: leftmost position wins. -/
def findFirstMatch (matchAt : Bool → Str → Option α) : Bool → Str → Option α
  | _, [] => none
  | prevWord, c :: rest =>
    match matchAt prevWord (c :: rest) with
    | some a => some a
    | none => findFirstMatch matchAt (isWordChar c) rest

/-- Candidates for a greedy `\d{1,2}`, in the order a backtracking engine
tries them (two digits first). -/
def digits12 (s : Str) : List (Str × Str) :=
  match s with
  | a :: b :: rest =>
    if isDigitJS a && isDigitJS b then [([a, b], rest), ([a], b :: rest)]
    else if isDigitJS a then [([a], b :: rest)] else []
  | [a] => if isDigitJS a then [([a], [])] else []
  | [] => []

/-- Exactly four digits (`\d{4}`). -/
def digits4 (s : Str) : Option (Str × Str) :=
  match s with
  | a :: b :: c :: d :: rest =>
    if isDigitJS a && isDigitJS b && isDigitJS c && isDigitJS d then
      some ([a, b, c, d], rest)
    else none
  | _ => none

/-- Greedy `\d{2,4}`: four digits, else three, else two. -/
def digits24 (s : Str) : Option Str :=
  match s with
  | a :: b :: c :: d :: _ =>
    if isDigitJS a && isDigitJS b && isDigitJS c && isDigitJS d then some [a, b, c, d]
    else if isDigitJS a && isDigitJS b && isDigitJS c then some [a, b, c]
    else if isDigitJS a && isDigitJS b then some [a, b]
    else none
  | a :: b :: c :: _ =>
    if isDigitJS a && isDigitJS b && isDigitJS c then some [a, b, c]
    else if isDigitJS a && isDigitJS b then some [a, b]
    else none
  | a :: b :: _ =>
    if isDigitJS a && isDigitJS b then some [a, b] else none
  | _ => none

/-! ## Date-pattern scanners of `extractFlightParams` -/

/-- Matcher for `/(\d{4}-\d{2}-\d{2})/g`. -/
def isoDateAt (_ : Bool) (s : Str) : Option (Str × Str) :=
  match s with
  | a :: b :: c :: d :: e :: f :: g :: h :: i :: j :: rest =>
    if isDigitJS a && isDigitJS b && isDigitJS c && isDigitJS d && e == '-' &&
        isDigitJS f && isDigitJS g && h == '-' && isDigitJS i && isDigitJS j then
      some ([a, b, c, d, e, f, g, h, i, j], rest)
    else none
  | _ => none

/-- Matcher for `/(\d{1,2}sep\d{1,2}sep\d{4})/g` with a fixed separator
(`/` or `-`). -/
def sepDateAt (sep : Char) (_ : Bool) (s : Str) : Option (Str × Str) :=
  (digits12 s).findSome? fun dr1 =>
    match dr1.2 with
    | c :: r2 =>
      if c == sep then
        (digits12 r2).findSome? fun dr2 =>
          match dr2.2 with
          | c2 :: r4 =>
            if c2 == sep then
              (digits4 r4).map fun dr3 =>
                (dr1.1 ++ [c] ++ dr2.1 ++ [c2] ++ dr3.1, dr3.2)
            else none
          | _ => none
      else none
    | _ => none

/-- Matcher for `/(\d{1,2}-\d{1,2})/g`. -/
def shortDateAt (_ : Bool) (s : Str) : Option (Str × Str) :=
  (digits12 s).findSome? fun dr1 =>
    match dr1.2 with
    | c :: r2 =>
      if c == '-' then
        (digits12 r2).findSome? fun dr2 => some (dr1.1 ++ [c] ++ dr2.1, dr2.2)
      else none
    | _ => none

/-- All matches of the four numeric date patterns, concatenated in
pattern order (as the `datePatterns.forEach` loop does). -/
def numericDateMatches (userInput : Str) : List Str :=
  scanGlobal isoDateAt (userInput.length + 1) false userInput ++
  scanGlobal (sepDateAt '/') (userInput.length + 1) false userInput ++
  scanGlobal (sepDateAt '-') (userInput.length + 1) false userInput ++
  scanGlobal shortDateAt (userInput.length + 1) false userInput

/-! ## Return-date keyword patterns -/

/-- The captured group `(\d{1,2}[-\/]\d{1,2}(?:[-\/]\d{2,4})?)`. -/
def returnDigitChunk (s : Str) : Option Str :=
  (digits12 s).findSome? fun dr1 =>
    match dr1.2 with
    | c :: r2 =>
      if c == '-' || c == '/' then
        (digits12 r2).findSome? fun dr2 =>
          let base := dr1.1 ++ [c] ++ dr2.1
          match dr2.2 with
          | c2 :: r4 =>
            if c2 == '-' || c2 == '/' then
              match digits24 r4 with
              | some d3 => some (base ++ [c2] ++ d3)
              | none => some base
            else some base
          | _ => some base
      else none
    | _ => none

/-- `[:\s]+` followed by the digit chunk. -/
def sepThenChunk (s : Str) : Option Str :=
  let rest := s.dropWhile fun c => c == ':' || isSpaceJS c
  if rest.length < s.length then returnDigitChunk rest else none

/-- `[:\s]*` followed by the digit chunk. -/
def optSepThenChunk (s : Str) : Option Str :=
  returnDigitChunk (s.dropWhile fun c => c == ':' || isSpaceJS c)

/-- `\s*(?:date|on)?[:\s]+(chunk)` — the tail of the first return-date
pattern (the optional keyword is tried first, as a greedy `?` does). -/
def returnSepTail (s : Str) : Option Str :=
  let afterWs := s.dropWhile fun c => isSpaceJS c
  let withKw :=
    match (if isPrefix (L "date") afterWs then sepThenChunk (afterWs.drop 4) else none) with
    | some r => some r
    | none => if isPrefix (L "on") afterWs then sepThenChunk (afterWs.drop 2) else none
  match withKw with
  | some r => some r
  | none => sepThenChunk s

/-- Matcher for `/return(?:ing)?\s*(?:date|on)?[:\s]+(chunk)/i` (on the
lowered input). -/
def returnPat1At (_ : Bool) (ls : Str) : Option Str :=
  if isPrefix (L "return") ls then
    let afterKw := ls.drop 6
    match (if isPrefix (L "ing") afterKw then returnSepTail (afterKw.drop 3) else none) with
    | some r => some r
    | none => returnSepTail afterKw
  else none

/-- Matcher for `/come\s*back\s*(?:on)?[:\s]*(chunk)/i`. -/
def returnPat2At (_ : Bool) (ls : Str) : Option Str :=
  if isPrefix (L "come") ls then
    let s1 := (ls.drop 4).dropWhile fun c => isSpaceJS c
    if isPrefix (L "back") s1 then
      let s2 := s1.drop 4
      let afterWs := s2.dropWhile fun c => isSpaceJS c
      match (if isPrefix (L "on") afterWs then optSepThenChunk (afterWs.drop 2) else none) with
      | some r => some r
      | none => optSepThenChunk s2
    else none
  else none

/-- Matcher for `/returning\s*(?:on)?[:\s]*(chunk)/i`. -/
def returnPat3At (_ : Bool) (ls : Str) : Option Str :=
  if isPrefix (L "returning") ls then
    let s2 := ls.drop 9
    let afterWs := s2.dropWhile fun c => isSpaceJS c
    match (if isPrefix (L "on") afterWs then optSepThenChunk (afterWs.drop 2) else none) with
    | some r => some r
    | none => optSepThenChunk s2
  else none

/-- The `returnDatePatterns` loop: first pattern with a match wins. -/
def findReturnDateMatch (userInput : Str) : Option Str :=
  let ls := lowerS userInput
  match findFirstMatch returnPat1At false ls with
  | some r => some r
  | none =>
    match findFirstMatch returnPat2At false ls with
    | some r => some r
    | none => findFirstMatch returnPat3At false ls

/-! ## Natural-language and month-name dates -/

/-- The `naturalDates` table (`'tomorrow'` is tested first, so the phrase
`day after tomorrow` is captured by the first group, as in the source). -/
def naturalDateGroups : List (List Str × ℕ) :=
  [ ([L "tomorrow"], 1),
    ([L "day after tomorrow", L "day after"], 2),
    ([L "next week"], 7),
    ([L "next month"], 30) ]

def findNaturalDateOffset (lowerInput : Str) : Option ℕ :=
  naturalDateGroups.findSome? fun g =>
    if g.1.any (fun p => containsSub lowerInput p) then some g.2 else none

/-- The month alternation of `extractMonthNameDates`, in the regex's
alternative order, paired with the `monthMap` values. -/
def monthNameNumPairs : List (Str × ℤ) :=
  [ (L "january", 1), (L "jan", 1), (L "february", 2), (L "feb", 2),
    (L "march", 3), (L "mar", 3), (L "april", 4), (L "apr", 4), (L "may", 5),
    (L "june", 6), (L "jun", 6), (L "july", 7), (L "jul", 7), (L "august", 8),
    (L "aug", 8), (L "september", 9), (L "sep", 9), (L "sept", 9),
    (L "october", 10), (L "oct", 10), (L "november", 11), (L "nov", 11),
    (L "december", 12), (L "dec", 12) ]

/-- `(?:st|nd|rd|th)?\b`: optional ordinal suffix (alternatives in order),
then a word boundary; returns the remainder after the consumed suffix. -/
def ordinalSuffixBoundary (s : Str) : Option Str :=
  let boundaryOk : Str → Bool := fun r =>
    match r with
    | [] => true
    | c :: _ => !isWordChar c
  let trySuf : Str → Option Str := fun suf =>
    if isPrefix suf s then
      let r := s.drop suf.length
      if boundaryOk r then some r else none
    else none
  match trySuf (L "st") with
  | some r => some r
  | none =>
    match trySuf (L "nd") with
    | some r => some r
    | none =>
      match trySuf (L "rd") with
      | some r => some r
      | none =>
        match trySuf (L "th") with
        | some r => some r
        | none => if boundaryOk s then some s else none

/-- `(\d{1,2})(?:st|nd|rd|th)?\b`: greedy day digits with backtracking,
returning the day value and the remainder. -/
def monthDayDigits (s : Str) : Option (ℕ × Str) :=
  (digits12 s).findSome? fun dr =>
    (ordinalSuffixBoundary dr.2).map fun r => (digitsToNat dr.1, r)

/-- Matcher for one month-name date
(`/\b(month)\s+(\d{1,2})(?:st|nd|rd|th)?\b/gi`, on the lowered input):
alternatives are tried in order and the rest of the pattern may reject an
alternative (so `sept 5` falls back from `sep` to `sept`). -/
def monthNameMatchAt (prevWord : Bool) (s : Str) : Option ((ℤ × ℕ) × Str) :=
  if prevWord then none
  else
    monthNameNumPairs.findSome? fun nm =>
      if isPrefix nm.1 s then
        let afterName := s.drop nm.1.length
        let afterWs := afterName.dropWhile fun c => isSpaceJS c
        if afterWs.length < afterName.length then
          (monthDayDigits afterWs).map fun dvr => ((nm.2, dvr.1), dvr.2)
        else none
      else none

/-- `extractMonthNameDates`. -/
def extractMonthNameDates (now : Now) (userInput : Str) : List Str :=
  let ls := lowerS userInput
  (scanGlobal monthNameMatchAt (ls.length + 1) false ls).filterMap fun md =>
    if 1 ≤ md.2 ∧ md.2 ≤ 31 then
      let lt := jsDateLtNow now.year (md.1 - 1) (md.2 : ℤ) now
      let year := now.year + (if lt then 1 else 0)
      some (intToChars year ++ ['-'] ++ padStart2 (intToChars md.1) ++ ['-'] ++
        padStart2 (natToChars md.2))
    else none

/-! ## Airports, cities, currency, language -/

/-- Matcher for `/\b([A-Z]{3})\b/g` (case-sensitive). -/
def upper3At (prevWord : Bool) (s : Str) : Option (Str × Str) :=
  if prevWord then none
  else
    match s with
    | a :: b :: c :: rest =>
      if isUpperJS a && isUpperJS b && isUpperJS c &&
          (match rest with
           | [] => true
           | d :: _ => !isWordChar d) then
        some ([a, b, c], rest)
      else none
    | _ => none

/-- All bare three-letter uppercase tokens, in order. -/
def scanAirportCodes (userInput : Str) : List Str :=
  scanGlobal upper3At (userInput.length + 1) false userInput

/-- The `cityAirportMap` of the flight planner, in source (insertion)
order — the lookup loops below depend on this order. -/
def cityAirportMap : List (Str × Str) :=
  [ (L "mumbai", L "BOM"), (L "delhi", L "DEL"), (L "new delhi", L "DEL"),
    (L "bangalore", L "BLR"), (L "bengaluru", L "BLR"), (L "kolkata", L "CCU"),
    (L "chennai", L "MAA"), (L "hyderabad", L "HYD"), (L "ahmedabad", L "AMD"),
    (L "pune", L "PNQ"), (L "goa", L "GOI"), (L "jaipur", L "JAI"),
    (L "lucknow", L "LKO"), (L "kochi", L "COK"), (L "cochin", L "COK"),
    (L "thiruvananthapuram", L "TRV"), (L "trivandrum", L "TRV"),
    (L "chandigarh", L "IXC"), (L "coimbatore", L "CJB"), (L "vadodara", L "BDQ"),
    (L "baroda", L "BDQ"), (L "indore", L "IDR"), (L "nagpur", L "NAG"),
    (L "surat", L "STV"), (L "visakhapatnam", L "VTZ"), (L "bhubaneswar", L "BBI"),
    (L "patna", L "PAT"), (L "ranchi", L "IXR"), (L "udaipur", L "UDR"),
    (L "amritsar", L "ATQ"), (L "srinagar", L "SXR"), (L "guwahati", L "GAU"),
    (L "imphal", L "IMF"), (L "agartala", L "IXA"), (L "varanasi", L "VNS"),
    (L "beijing", L "PEK"), (L "shanghai", L "PVG"), (L "guangzhou", L "CAN"),
    (L "shenzhen", L "SZX"), (L "chengdu", L "CTU"), (L "hangzhou", L "HGH"),
    (L "xi" ++ [apoC] ++ L "an", L "XIY"), (L "xian", L "XIY"),
    (L "london", L "LHR"), (L "paris", L "CDG"), (L "frankfurt", L "FRA"),
    (L "amsterdam", L "AMS"), (L "madrid", L "MAD"), (L "rome", L "FCO"),
    (L "barcelona", L "BCN"), (L "berlin", L "BER"), (L "istanbul", L "IST"),
    (L "moscow", L "SVO"), (L "dublin", L "DUB"), (L "vienna", L "VIE"),
    (L "zurich", L "ZRH"), (L "geneva", L "GVA"), (L "brussels", L "BRU"),
    (L "copenhagen", L "CPH"), (L "new york", L "JFK"), (L "los angeles", L "LAX"),
    (L "chicago", L "ORD"), (L "miami", L "MIA"), (L "austin", L "AUS"),
    (L "dallas", L "DFW"), (L "houston", L "IAH"), (L "atlanta", L "ATL"),
    (L "san francisco", L "SFO"), (L "seattle", L "SEA"), (L "boston", L "BOS"),
    (L "washington", L "IAD"), (L "las vegas", L "LAS"), (L "orlando", L "MCO"),
    (L "phoenix", L "PHX"), (L "denver", L "DEN"), (L "toronto", L "YYZ"),
    (L "vancouver", L "YVR"), (L "montreal", L "YUL"), (L "calgary", L "YYC"),
    (L "sydney", L "SYD"), (L "melbourne", L "MEL"), (L "brisbane", L "BNE"),
    (L "perth", L "PER"), (L "tokyo", L "NRT"), (L "seoul", L "ICN"),
    (L "singapore", L "SIN"), (L "hong kong", L "HKG"), (L "dubai", L "DXB"),
    (L "bangkok", L "BKK"), (L "kuala lumpur", L "KUL"), (L "jakarta", L "CGK"),
    (L "manila", L "MNL"), (L "taipei", L "TPE"), (L "ho chi minh", L "SGN"),
    (L "saigon", L "SGN"), (L "hanoi", L "HAN"), (L "kathmandu", L "KTM"),
    (L "dhaka", L "DAC"), (L "colombo", L "CMB"), (L "karachi", L "KHI"),
    (L "lahore", L "LHE"), (L "islamabad", L "ISB") ]

/-- `[a-z\s]` (the lazy character class of the `from … to …` pattern). -/
def isCityClassChar (c : Char) : Bool := ('a' ≤ c ∧ c ≤ 'z') || isSpaceJS c

/-- `(?:\s+on|\s+in|\s+at|$)` — the terminator after the arrival group. -/
def cityTerminatorAt (s : Str) : Bool :=
  match s with
  | [] => true
  | _ =>
    let afterWs := s.dropWhile fun c => isSpaceJS c
    afterWs.length < s.length &&
    (isPrefix (L "on") afterWs || isPrefix (L "in") afterWs || isPrefix (L "at") afterWs)

/-- Lazy `([a-z\s]+?)` up to the terminator (arrival group). -/
def lazyArrivalGroup : ℕ → Str → Str → Option Str
  | 0, _, _ => none
  | fuel + 1, acc, s =>
    if acc ≠ [] ∧ cityTerminatorAt s then some acc
    else
      match s with
      | c :: rest =>
        if isCityClassChar c then lazyArrivalGroup fuel (acc ++ [c]) rest else none
      | [] => none

/-- `\s+to\s+`: one or more spaces, the literal `to`, one or more spaces. -/
def spacesToSpaces (s : Str) : Option Str :=
  let r1 := s.dropWhile fun c => isSpaceJS c
  if r1.length < s.length ∧ isPrefix (L "to") r1 then
    let r2 := (r1.drop 2).dropWhile fun c => isSpaceJS c
    if r2.length < (r1.drop 2).length then some r2 else none
  else none

/-- Lazy `([a-z\s]+?)` departure group followed by `\s+to\s+` and the
arrival group: extends one character at a time, retrying the
continuation after each extension. -/
def lazyDepartureGroup : ℕ → Str → Str → Option (Str × Str)
  | 0, _, _ => none
  | fuel + 1, acc, s =>
    let viaCont :=
      if acc ≠ [] then
        match spacesToSpaces s with
        | some rest2 =>
          match lazyArrivalGroup (rest2.length + 1) [] rest2 with
          | some y => some (acc, y)
          | none => none
        | none => none
      else none
    match viaCont with
    | some r => some r
    | none =>
      match s with
      | c :: rest =>
        if isCityClassChar c then lazyDepartureGroup fuel (acc ++ [c]) rest else none
      | [] => none

/-- Matcher for `/from\s+([a-z\s]+?)\s+to\s+([a-z\s]+?)(?:\s+on|\s+in|\s+at|$)/i`
at one position of the lowered input. -/
def fromToCityAt (_ : Bool) (ls : Str) : Option (Str × Str) :=
  if isPrefix (L "from") ls then
    let s1 := ls.drop 4
    let r1 := s1.dropWhile fun c => isSpaceJS c
    if r1.length < s1.length then lazyDepartureGroup (r1.length + 1) [] r1 else none
  else none

/-- One direction of the city lookup loop: substring containment in both
directions, the last matching map entry winning (the loop keeps
overwriting). -/
def cityCodeFor (q : Str) : Option Str :=
  cityAirportMap.foldl
    (fun acc e => if containsSub q e.1 || containsSub e.1 q then some e.2 else acc)
    none

/-- `extractCityAirports`. -/
def extractCityAirports (userInput : Str) : Option (Str × Str) :=
  let lowerInput := lowerS userInput
  let viaFromTo :=
    match findFirstMatch fromToCityAt false lowerInput with
    | some xy =>
      let dep := cityCodeFor (trimJS xy.1)
      let arr := cityCodeFor (trimJS xy.2)
      match dep, arr with
      | some d, some a => some (d, a)
      | _, _ => none
    | none => none
  match viaFromTo with
  | some r => some r
  | none =>
    let foundCities := cityAirportMap.filterMap fun e =>
      if containsSub lowerInput e.1 then some e.2 else none
    match foundCities with
    | a :: b :: _ => some (a, b)
    | _ => none

/-- `\b(USD|EUR|GBP|CAD|AUD|JPY|CHF)\b/i` with `match[0].toUpperCase()`. -/
def findCurrency (userInput : Str) : Option Str :=
  (findWordAlt [L "usd", L "eur", L "gbp", L "cad", L "aud", L "jpy", L "chf"]
    false (lowerS userInput)).map fun a => a.map fun c =>
      if 'a' ≤ c ∧ c ≤ 'z' then Char.ofNat (c.toNat - 32) else c

/-- `\b(en|es|fr|de|it|pt|ru|zh|ja|ko)\b/i` with `match[0].toLowerCase()`. -/
def findLanguageHint (userInput : Str) : Option Str :=
  findWordAlt [L "en", L "es", L "fr", L "de", L "it", L "pt", L "ru", L "zh",
    L "ja", L "ko"] false (lowerS userInput)

/-! ## `extractFlightParams` -/

structure FlightParams where
  departureId : Option Str
  arrivalId : Option Str
  outboundDate : Option Str
  returnDate : Option Str
  currency : Option Str
  hl : Option Str
deriving DecidableEq, Repr

def emptyParams : FlightParams := ⟨none, none, none, none, none, none⟩

/-- Truthiness of an optional string field (absent and `''` are falsy). -/
def jsTruthyS (o : Option Str) : Bool :=
  match o with
  | some s => !s.isEmpty
  | none => false

/-- The date pipeline of `extractFlightParams`: natural-language dates,
else month-name dates, else the numeric patterns. -/
def extractDatesList (now : Now) (userInput lowerInput : Str) : List Str :=
  match findNaturalDateOffset lowerInput with
  | some off => [isoOfTriple (civilFromDays (nowDayNumber now + off))]
  | none =>
    let mnd := extractMonthNameDates now userInput
    if mnd.isEmpty then numericDateMatches userInput else mnd

/-- The airport resolution of `extractFlightParams`: two bare IATA codes,
else the city-name lookup. -/
def extractAirportPair (userInput : Str) : Option (Str × Str) :=
  match scanAirportCodes userInput with
  | a :: b :: _ => some (a, b)
  | _ => extractCityAirports userInput

/-- `extractFlightParams` of the flight planner. -/
def extractFlightParams (now : Now) (userInput : Str) : Option FlightParams :=
  let lowerInput := lowerS userInput
  let returnDateMatch := findReturnDateMatch userInput
  let dates := extractDatesList now userInput lowerInput
  let outboundDate :=
    match dates with
    | [] => none
    | d :: _ => some (normalizeDate now d)
  let returnDate :=
    match returnDateMatch with
    | some r => some (normalizeDate now r)
    | none =>
      match dates with
      | _ :: d2 :: _ => if d2.isEmpty then none else some (normalizeDate now d2)
      | _ => none
  let pair := extractAirportPair userInput
  let params : FlightParams :=
    { departureId := pair.map fun xy => xy.1
      arrivalId := pair.map fun xy => xy.2
      outboundDate := outboundDate
      returnDate := returnDate
      currency := findCurrency userInput
      hl := findLanguageHint userInput }
  if jsTruthyS params.departureId ∧ jsTruthyS params.arrivalId ∧
      jsTruthyS params.outboundDate then
    some params
  else none

/-! ## Multi-route guard (`hasMultipleFlightRoutes`) -/

/-- JavaScript `.` (dot): any character except line terminators. -/
def dotChar (c : Char) : Bool :=
  !(c == '\n' || c == '\r' || c == Char.ofNat 8232 || c == Char.ofNat 8233)

/-- Scan forward (through `.​*?`-matchable characters only) for a
word-bounded occurrence of one of `alts2`. -/
def searchSecondAlt (alts2 : List Str) : Bool → Str → Bool
  | _, [] => false
  | prevWord, c :: rest =>
    (wordAltHereOpt alts2 prevWord (c :: rest)).isSome ||
    (dotChar c && searchSecondAlt alts2 (isWordChar c) rest)

/-- Test of `/\b(alts1)\b.*?\b(alts2)\b/i` on an already-lowered string. -/
def wordAltThenWordAlt (alts1 alts2 : List Str) : Bool → Str → Bool
  | _, [] => false
  | prevWord, c :: rest =>
    (match wordAltHereOpt alts1 prevWord (c :: rest) with
     | some a => searchSecondAlt alts2 true ((c :: rest).drop a.length)
     | none => false) ||
    wordAltThenWordAlt alts1 alts2 (isWordChar c) rest

/-- `\w+` (one or more word characters), greedy. -/
def takeWord (s : Str) : Option (Str × Str) :=
  let w := s.takeWhile fun c => isWordChar c
  if w.isEmpty then none else some (w, s.drop w.length)

/-- Matcher for `/\bfrom\s+(\w+)\s+to\s+(\w+)/gi` at one position,
returning the whole matched text and the remainder. -/
def guardFromToAt (prevWord : Bool) (s : Str) : Option (Str × Str) :=
  if prevWord then none
  else if isPrefix (L "from") s then
    let r0 := s.drop 4
    let r1 := r0.dropWhile fun c => isSpaceJS c
    if r1.length < r0.length then
      match takeWord r1 with
      | some wr1 =>
        match spacesToSpaces wr1.2 with
        | some r3 =>
          match takeWord r3 with
          | some wr2 => some (s.take (s.length - wr2.2.length), wr2.2)
          | none => none
        | none => none
      | none => none
    else none
  else none

/-- Matcher for `/\b(\w+)\s+to\s+(\w+)\b/gi` at one position. -/
def standaloneRouteAt (prevWord : Bool) (s : Str) : Option (Str × Str) :=
  if prevWord then none
  else
    match takeWord s with
    | some wr1 =>
      match spacesToSpaces wr1.2 with
      | some r3 =>
        match takeWord r3 with
        | some wr2 => some (s.take (s.length - wr2.2.length), wr2.2)
        | none => none
      | none => none
    | none => none

/-- `split(/\s+/)` on a string that starts with a non-space character. -/
def splitWsRuns : Str → List Str
  | [] => []
  | c :: rest =>
    if isSpaceJS c then splitWsRuns rest
    else
      match splitWsRuns rest with
      | [] => [[c]]
      | t :: ts =>
        match rest with
        | [] => [[c]]
        | r :: _ => if isSpaceJS r then [c] :: t :: ts else (c :: t) :: ts

/-- The "common non-city words" filter of the guard. -/
def guardBannedWords : List Str :=
  [L "need", L "want", L "going", L "trying", L "planning", L "looking",
   L "help", L "get", L "find"]

def hasNonCityWord (m : Str) : Bool :=
  (splitWsRuns m).any fun w => guardBannedWords.contains w

/-- `existingRoute.replace('from ', '')`: remove the first occurrence. -/
def replaceFirst (s pat : Str) : Str :=
  match s with
  | [] => []
  | c :: rest =>
    if isPrefix pat (c :: rest) then (c :: rest).drop pat.length
    else c :: replaceFirst rest pat

/-- Matcher for one alternative of
`/\b([A-Z]{3}|mumbai|…|shanghai)\b/gi` on the lowered message: the
`[A-Z]{3}` branch (any three letters under the `i` flag) is tried first,
then the city names in order. -/
def guardCityAt (prevWord : Bool) (s : Str) : Option (Unit × Str) :=
  if prevWord then none
  else
    let three :=
      match s with
      | a :: b :: c :: rest =>
        if isAlphaJS a && isAlphaJS b && isAlphaJS c &&
            (match rest with
             | [] => true
             | d :: _ => !isWordChar d) then
          some ((), rest)
        else none
      | _ => none
    match three with
    | some r => some r
    | none =>
      (wordAltHereOpt
        [L "mumbai", L "delhi", L "bangalore", L "chennai", L "kolkata",
         L "hyderabad", L "pune", L "ahmedabad", L "jaipur", L "surat",
         L "london", L "dubai", L "singapore", L "bangkok", L "tokyo",
         L "new york", L "paris", L "sydney", L "hong kong", L "kuala lumpur",
         L "jakarta", L "manila", L "seoul", L "beijing", L "shanghai"]
        prevWord s).map fun a => ((), s.drop a.length)

/-- `hasMultipleFlightRoutes` of the flight agent. -/
def hasMultipleFlightRoutes (message : Str) : Bool :=
  let lower := lowerS message
  let fromToMatches := scanGlobal guardFromToAt (lower.length + 1) false lower
  let standaloneMatches := scanGlobal standaloneRouteAt (lower.length + 1) false lower
  let p1 : List Str × ℕ :=
    fromToMatches.foldl
      (fun fr m =>
        if hasNonCityWord m then fr
        else ((if fr.1.contains m then fr.1 else fr.1 ++ [m]), fr.2 + 1))
      ([], 0)
  let p2 : List Str × ℕ :=
    standaloneMatches.foldl
      (fun fr m =>
        if hasNonCityWord m ∨ fr.1.contains m then fr
        else if fr.1.any (fun ex =>
            containsSub ex m || containsSub m (replaceFirst ex (L "from "))) then fr
        else (fr.1 ++ [m], fr.2 + 1))
      p1
  let routeCount := p2.2
  let hasMultiIndicator :=
    wordAltThenWordAlt
      [L "also", L "and also", L "additionally", L "plus", L "another"]
      [L "flight", L "ticket", L "trip"] false lower ||
    wordAltThenWordAlt
      [L "first", L "second", L "third", L "1st", L "2nd", L "3rd"]
      [L "flight", L "ticket", L "trip"] false lower
  if routeCount ≥ 3 ∨ (routeCount ≥ 2 ∧ hasMultiIndicator) then true
  else
    (scanGlobal guardCityAt (lower.length + 1) false lower).length ≥ 6

/-! ## Flight agent (`processFlightQuery`), with external calls as oracles -/

/-- Outcome of one `client.models.generateContent` call: a completion text
(possibly empty, standing for a missing `response.text`) or a thrown
error. -/
inductive GenOutcome where
  | ok (text : Str)
  | err
deriving DecidableEq, Repr

structure FlightOpt where
  airline : Str
  priceAmount : ℤ
  duration : Str
  stops : ℤ
deriving DecidableEq, Repr

/-- The relevant shape of a SerpAPI response body: an optional `error`
field and the flight records its parser extracts. -/
structure ApiData where
  apiError : Option Str
  flights : List FlightOpt
deriving DecidableEq, Repr

/-- Outcome of the `axios.get` call in `searchFlights`: a response, an
HTTP error response (with optional body error and a rendered
`HTTP status: statusText` fallback string), a network failure, or any
other thrown error. -/
inductive AxiosOutcome where
  | ok (data : ApiData)
  | errResponse (dataError : Option Str) (statusLine : Str)
  | errRequest
  | errOther (msg : Option Str)
deriving DecidableEq, Repr

structure FlightOracles where
  aiHelp : GenOutcome
  contextual : GenOutcome
  searchErrHelp : GenOutcome
  genResponse : GenOutcome
  axios : AxiosOutcome
deriving DecidableEq, Repr

structure SearchResultM where
  success : Bool
  flights : List FlightOpt
  error : Option Str
deriving DecidableEq, Repr

/-- JavaScript `a || b` for an optional string `a` (empty is falsy). -/
def jsOrS (a : Option Str) (b : Str) : Str :=
  match a with
  | some s => if s.isEmpty then b else s
  | none => b

/-- `searchFlights` of the flight planner: every axios outcome is caught
and turned into a plain result value (no exception escapes). -/
def searchFlights (ax : AxiosOutcome) : SearchResultM :=
  match ax with
  | .ok data =>
    match data.apiError with
    | some e =>
      if e.isEmpty then { success := true, flights := data.flights, error := none }
      else { success := false, flights := [], error := some e }
    | none => { success := true, flights := data.flights, error := none }
  | .errResponse dataError statusLine =>
    { success := false, flights := [], error := some (jsOrS dataError statusLine) }
  | .errRequest =>
    { success := false, flights := [],
      error := some (L "Network error: Unable to reach SerpAPI") }
  | .errOther msg =>
    { success := false, flights := [], error := some (jsOrS msg (L "Unknown error occurred")) }

def aiHelpFallbackOk : Str :=
  L "I" ++ [apoC] ++ L "d love to help you find flights! Could you tell me where you" ++
  [apoC] ++ L "d like to fly from, where to, and when?"

def aiHelpFallbackErr : Str :=
  L "I" ++ [apoC] ++ L "d love to help you find flights! Could you tell me:\n- Where you" ++
  [apoC] ++ L "re flying from\n- Your destination\n- Your travel dates"

/-- `getAIFlightHelp`: the AI reply, or the canned fallbacks on a missing
text / thrown error. -/
def getAIFlightHelp (o : GenOutcome) : Str :=
  match o with
  | .ok t => if t.isEmpty then aiHelpFallbackOk else t
  | .err => aiHelpFallbackErr

/-- `getContextualClarification`. -/
def getContextualClarification (o : GenOutcome) (missingInfo : List Str) : Str :=
  match o with
  | .ok t =>
    if t.isEmpty then
      L "Great! I got some flight details, but I still need " ++
      joinSep (L " and ") missingInfo ++ L ". Could you provide that?"
    else t
  | .err =>
    L "I need a bit more information for your flight search: " ++
    joinSep (L " and ") missingInfo ++ L ". Could you provide that?"

/-- `handleFlightSearchError`. -/
def handleFlightSearchError (o : GenOutcome) : Str :=
  match o with
  | .ok t =>
    if t.isEmpty then L "I had trouble finding flights. Try different dates or nearby airports?"
    else t
  | .err => L "I encountered an issue with the flight search. Could you try different dates or airports?"

/-- One line of `formatFlightResults`. -/
def fmtFlightLine (idx : ℕ) (f : FlightOpt) : Str :=
  let price := if f.priceAmount ≠ 0 then L "$" ++ intToChars f.priceAmount else L "Price N/A"
  let dur := if f.duration.isEmpty then L "Duration N/A" else f.duration ++ L " min"
  let stops := if f.stops = 0 then L "Nonstop" else intToChars f.stops ++ L " stop(s)"
  L "Flight " ++ natToChars (idx + 1) ++ L ": " ++ f.airline ++ L " - " ++ price ++
  L ", " ++ dur ++ L ", " ++ stops

/-- The indexed `.map((flight, index) => …)` of `formatFlightResults`. -/
def fmtLines (idx : ℕ) : List FlightOpt → List Str
  | [] => []
  | f :: fs => fmtFlightLine idx f :: fmtLines (idx + 1) fs

/-- `formatFlightResults` (first five flights, newline-joined). -/
def formatFlightResults (flights : List FlightOpt) : Str :=
  joinSep (L "\n") (fmtLines 0 (flights.take 5))

/-- `generateFlightResponse`: AI text, else the raw summary. -/
def generateFlightResponse (o : GenOutcome) (flightSummary : Str) : Str :=
  match o with
  | .ok t => if t.isEmpty then flightSummary else t
  | .err => flightSummary

def mergeField (cur ctx : Option Str) : Option Str :=
  if jsTruthyS cur then cur else ctx

def paramsKeysEmpty (p : FlightParams) : Bool :=
  p.departureId.isNone && p.arrivalId.isNone && p.outboundDate.isNone &&
  p.returnDate.isNone && p.currency.isNone && p.hl.isNone

/-- `mergeFlightParams`. -/
def mergeFlightParams (currentParams : Option FlightParams)
    (contextParams : FlightParams) : Option FlightParams :=
  if currentParams.isNone ∧ paramsKeysEmpty contextParams then none
  else
    let merged :=
      match currentParams with
      | none => contextParams
      | some cp =>
        { departureId := mergeField cp.departureId contextParams.departureId
          arrivalId := mergeField cp.arrivalId contextParams.arrivalId
          outboundDate := mergeField cp.outboundDate contextParams.outboundDate
          returnDate := mergeField cp.returnDate contextParams.returnDate
          currency := mergeField cp.currency contextParams.currency
          hl := mergeField cp.hl contextParams.hl }
    if ¬ jsTruthyS merged.departureId ∧ ¬ jsTruthyS merged.arrivalId ∧
        ¬ jsTruthyS merged.outboundDate then none
    else some merged

def hasCompleteParams (p : FlightParams) : Bool :=
  jsTruthyS p.departureId && jsTruthyS p.arrivalId && jsTruthyS p.outboundDate

structure FlightAgentResponse where
  message : Str
  flightData : Option (List FlightOpt)
  searchParams : Option FlightParams
  tripType : Option Str
  requiresMoreInfo : Option Bool
  suggestedQuestions : List Str
deriving DecidableEq, Repr

/-- External-consultation events of one `processFlightQuery` run. -/
inductive FEvent where
  | extractorCall
  | searchCall
  | aiCall
deriving DecidableEq, Repr

def multiRouteSuggestedQuestions : List Str :=
  [L "Search Mumbai to Dubai first", L "Find Delhi to London flights",
   L "Show Bangalore to Singapore options"]

def multiRouteMessage : Str :=
  L "I noticed you" ++ [apoC] ++
  L "re asking about multiple flight searches at once! 😊\n\nTo give you the most accurate results, I" ++
  [apoC] ++
  L "d like to help you with each search one at a time.\n\n**Which flight would you like me to search for first?**\n\nPlease provide:\n- Departure city/airport\n- Arrival city/airport\n- Travel dates\n\nOnce I find those flights for you, we can move on to the next search!"

def blankResponse : FlightAgentResponse :=
  { message := [], flightData := none, searchParams := none, tripType := none,
    requiresMoreInfo := none, suggestedQuestions := [] }

/-- The `missingInfo` list built by the three `push` statements. -/
def missingInfoOf (p : FlightParams) : List Str :=
  (if ¬ jsTruthyS p.departureId then [L "departure city/airport"] else []) ++
  (if ¬ jsTruthyS p.arrivalId then [L "arrival city/airport"] else []) ++
  (if ¬ jsTruthyS p.outboundDate then [L "departure date"] else [])

/-- `processFlightQuery` of the flight agent.  External calls (parameter
extraction, flight search, AI generation) are recorded as events; the
multi-route guard returns before any of them happen. -/
def processFlightQuery (o : FlightOracles) (now : Now) (ctx : FlightParams)
    (message : Str) (history : List HistEntry) :
    FlightAgentResponse × FlightParams × List FEvent :=
  if hasMultipleFlightRoutes message then
    ({ blankResponse with
        message := multiRouteMessage
        requiresMoreInfo := some true
        suggestedQuestions := multiRouteSuggestedQuestions },
      ctx, [])
  else
    let currentParams := extractFlightParams now message
    let useHistory : Bool :=
      history.length > 0 &&
      (match currentParams with
       | none => true
       | some cp => !hasCompleteParams cp)
    let historyParams :=
      if useHistory then
        extractFlightParams now (joinSep (L " ") (history.map fun e => e.message))
      else none
    let evts : List FEvent :=
      FEvent.extractorCall :: (if useHistory then [FEvent.extractorCall] else [])
    let extractedParams :=
      mergeFlightParams
        (match currentParams with
         | some c => some c
         | none => historyParams)
        ctx
    let ctx2 :=
      match currentParams with
      | some cp =>
        { departureId := cp.departureId.orElse fun _ => ctx.departureId
          arrivalId := cp.arrivalId.orElse fun _ => ctx.arrivalId
          outboundDate := cp.outboundDate.orElse fun _ => ctx.outboundDate
          returnDate := cp.returnDate.orElse fun _ => ctx.returnDate
          currency := cp.currency.orElse fun _ => ctx.currency
          hl := cp.hl.orElse fun _ => ctx.hl }
      | none => ctx
    match extractedParams with
    | none =>
      ({ blankResponse with
          message := getAIFlightHelp o.aiHelp
          requiresMoreInfo := some true
          suggestedQuestions :=
            [L "Where would you like to fly from?", L "What" ++ [apoC] ++ L "s your destination?",
             L "When would you like to travel?"] },
        ctx2, evts ++ [FEvent.aiCall])
    | some ep =>
      let missingInfo := missingInfoOf ep
      if missingInfo.length > 0 then
        ({ blankResponse with
            message := getContextualClarification o.contextual missingInfo
            searchParams := some ep
            requiresMoreInfo := some true },
          ctx2, evts ++ [FEvent.aiCall])
      else
        let tripType := if jsTruthyS ep.returnDate then L "round-trip" else L "one-way"
        let searchResult := searchFlights o.axios
        if ¬ searchResult.success then
          ({ blankResponse with
              message := handleFlightSearchError o.searchErrHelp
              searchParams := some ep
              tripType := some tripType
              requiresMoreInfo := some true },
            ctx2, evts ++ [FEvent.searchCall, FEvent.aiCall])
        else if searchResult.flights.isEmpty then
          ({ blankResponse with
              message :=
                L "I searched for flights from " ++ (ep.departureId.getD []) ++
                L " to " ++ (ep.arrivalId.getD []) ++ L " on " ++
                (ep.outboundDate.getD []) ++
                (if jsTruthyS ep.returnDate then L " returning " ++ (ep.returnDate.getD [])
                 else []) ++
                L ", but no flights were available. You may want to try different dates or nearby airports."
              searchParams := some ep
              tripType := some tripType
              flightData := some [] },
            ctx2, evts ++ [FEvent.searchCall])
        else
          let flightSummary := formatFlightResults searchResult.flights
          ({ blankResponse with
              message := generateFlightResponse o.genResponse flightSummary
              flightData := some searchResult.flights
              searchParams := some ep
              tripType := some tripType
              requiresMoreInfo := some false },
            ctx2, evts ++ [FEvent.searchCall, FEvent.aiCall])

/-! ## Router `chat`: state, dispatch, history -/

/-- The mutable per-session state of `AgentRouterService` that the claims
touch: the conversation history, the `conversationState` record, and the
flight agent's accumulated `conversationContext`. -/
structure RouterState where
  history : List HistEntry
  currentIntent : Str
  hasDeparture : Bool
  hasArrival : Bool
  hasDate : Bool
  hasReturnDate : Bool
  lastAskedFor : List Str
  hasName : Bool
  hasLocation : Bool
  hasOccupation : Bool
  flightCtx : FlightParams
deriving DecidableEq, Repr

/-- The constructor / `clearHistory` state. -/
def initialRouterState : RouterState :=
  { history := [], currentIntent := L "unknown", hasDeparture := false,
    hasArrival := false, hasDate := false, hasReturnDate := false,
    lastAskedFor := [], hasName := false, hasLocation := false,
    hasOccupation := false, flightCtx := emptyParams }

/-- `updateConversationState` for the flight branch. -/
def updateStateFlight (st : RouterState) (message : Str) : RouterState :=
  let lower := lowerS message
  { st with
    currentIntent := L "flight"
    hasDeparture :=
      if containsSub lower (L "from") || containsSub lower (L "departure") then true
      else st.hasDeparture
    hasArrival :=
      if containsSub lower (L "to") || containsSub lower (L "arrival") then true
      else st.hasArrival
    hasDate :=
      if testShortNumericDate message || testWordAltCI monthAbbrevAlts message then true
      else st.hasDate }

/-- `updateConversationState` for the personal branch. -/
def updateStatePersonal (st : RouterState) (message : Str) : RouterState :=
  let lower := lowerS message
  { st with
    currentIntent := L "personal"
    hasName :=
      if containsSub lower (L "my name is") || containsSub lower (L "i am") ||
          containsSub lower (L "i" ++ [apoC] ++ L "m") then true
      else st.hasName
    hasLocation :=
      if containsSub lower (L "i live in") ||
          containsSub lower (L "i" ++ [apoC] ++ L "m from") then true
      else st.hasLocation
    hasOccupation :=
      if containsSub lower (L "i work as") || containsSub lower (L "my job") then true
      else st.hasOccupation }

/-- Per-call oracle inputs of `chat`: the flight agent's external calls
and the personal agent's reply (`personalAgent.processMessage(...)` is a
thin AI wrapper, out of scope of the claims). -/
structure ChatOracles where
  flightOracles : FlightOracles
  personalMessage : Str
deriving DecidableEq, Repr

/-- The slice of the `ChatResponse` envelope the claims talk about. -/
structure ChatResponseM where
  response : Str
  agent : Str
  typeLabel : Str
  confidence : ℚ
  flightScore : ℚ
  personalScore : ℚ
deriving DecidableEq, Repr

/-- One complete `chat(message)` call: scoring, conversation-state floors,
dynamic threshold, dispatch to the chosen agent, and the two history
appends done by `handleFlightQuery` / `handlePersonalQuery`. -/
def chatStep (o : ChatOracles) (now : Now) (st : RouterState) (message : Str) :
    RouterState × ChatResponseM :=
  let flightScore :=
    boostFlightScore (isOngoingFlightConversation st.history)
      (calculateFlightConfidence message)
  let personalScore :=
    boostPersonalScore (isOngoingPersonalConversation st.history)
      (calculatePersonalConfidence message)
  match selectAgent flightScore personalScore with
  | Agent.flight =>
    let hist1 := st.history ++ [{ role := L "user", message := message }]
    let st1 := updateStateFlight { st with history := hist1 } message
    let pf := processFlightQuery o.flightOracles now st.flightCtx message hist1
    ({ st1 with
        history := hist1 ++ [{ role := L "assistant", message := pf.1.message }]
        flightCtx := pf.2.1 },
      { response := pf.1.message, agent := L "Flight Assistant",
        typeLabel := L "flight", confidence := flightScore,
        flightScore := flightScore, personalScore := personalScore })
  | Agent.personal =>
    let hist1 := st.history ++ [{ role := L "user", message := message }]
    let st1 := updateStatePersonal { st with history := hist1 } message
    let reply := o.personalMessage
    ({ st1 with history := hist1 ++ [{ role := L "assistant", message := reply }] },
      { response := reply, agent := L "Personal Assistant",
        typeLabel := L "personal", confidence := personalScore,
        flightScore := flightScore, personalScore := personalScore })

/-- Iterated `chat` calls on one router instance. -/
def chatRun (now : Now) (st : RouterState) : List (Str × ChatOracles) → RouterState
  | [] => st
  | (m, o) :: rest => chatRun now (chatStep o now st m).1 rest

/-- Strict user/assistant alternation, phrased as a left fold: the first
component says all roles so far alternate starting with `user`; the
second says the next expected role is `user` (i.e. the length is even). -/
def rolesFold (history : List HistEntry) : Bool × Bool :=
  history.foldl
    (fun acc e =>
      (acc.1 && (e.role == (if acc.2 then L "user" else L "assistant")), !acc.2))
    (true, true)

/-- Day count of the civil algorithm up to March 1 of year `y+1` relative
to the era origin: the `era`/`yoe` part of `daysFromCivil` as a function
of the (March-based) year alone.  Used to reason about year roll-over. -/
def gyear (y : ℤ) : ℤ :=
  146097 * (y / 400) + 365 * (y % 400) + (y % 400) / 4 - (y % 400) / 100

/-! ## Concrete fixtures used by witnesses and counterexamples -/

/-- A fixed current moment used by concrete evaluations. -/
def specNow : Now := { year := 2025, month := 10, day := 11, pastMidnight := true }

/-- Concrete oracle values: every external call fails (AI errors, network
error), the personal agent answers `"ok"`. -/
def plainOracles : ChatOracles :=
  { flightOracles :=
      { aiHelp := GenOutcome.err, contextual := GenOutcome.err,
        searchErrHelp := GenOutcome.err, genResponse := GenOutcome.err,
        axios := AxiosOutcome.errRequest }
    personalMessage := L "ok" }

/-- The spec's multi-route example input. -/
def specMultiRouteExample : Str :=
  L "Mumbai to Dubai, also Delhi to London, also Bangalore to Singapore"

/-- The spec's extractor example input. -/
def specPekAusExample : Str :=
  L "Find flights from PEK to AUS on 2025-10-18 returning 2025-10-24"

/-! ## Helper lemmas -/

theorem append_ne_nil_left {a b : Str} (h : a ≠ []) : a ++ b ≠ [] := by
  cases a with
  | nil => exact absurd rfl h
  | cons x xs => simp

theorem isEmpty_false_ne_nil {s : Str} (h : s.isEmpty = false) : s ≠ [] := by
  cases s with
  | nil => simp [List.isEmpty] at h
  | cons x xs => simp

theorem getAIFlightHelp_ne_nil (o : GenOutcome) : getAIFlightHelp o ≠ [] := by
  cases o with
  | ok t =>
    unfold getAIFlightHelp
    cases ht : t.isEmpty with
    | true => simp only [ht, if_true]; with_unfolding_all decide
    | false => simp only [ht, if_false]; exact isEmpty_false_ne_nil ht
  | err =>
    unfold getAIFlightHelp
    with_unfolding_all decide

theorem getContextualClarification_ne_nil (o : GenOutcome) (mi : List Str) :
    getContextualClarification o mi ≠ [] := by
  cases o with
  | ok t =>
    unfold getContextualClarification
    cases ht : t.isEmpty with
    | true => simp only [ht, if_true]; exact append_ne_nil_left (append_ne_nil_left (by decide))
    | false => simp only [ht, if_false]; exact isEmpty_false_ne_nil ht
  | err =>
    unfold getContextualClarification
    exact append_ne_nil_left (append_ne_nil_left (by decide))

theorem handleFlightSearchError_ne_nil (o : GenOutcome) :
    handleFlightSearchError o ≠ [] := by
  cases o with
  | ok t =>
    unfold handleFlightSearchError
    cases ht : t.isEmpty with
    | true => simp only [ht, if_true]; with_unfolding_all decide
    | false => simp only [ht, if_false]; exact isEmpty_false_ne_nil ht
  | err =>
    unfold handleFlightSearchError
    with_unfolding_all decide

theorem fmtFlightLine_ne_nil (i : ℕ) (f : FlightOpt) : fmtFlightLine i f ≠ [] := by
  unfold fmtFlightLine
  repeat apply append_ne_nil_left
  decide

theorem joinSep_cons_ne_nil (sep x : Str) (xs : List Str) (h : x ≠ []) :
    joinSep sep (x :: xs) ≠ [] := by
  cases xs with
  | nil => simpa [joinSep] using h
  | cons y ys =>
    show x ++ sep ++ joinSep sep (y :: ys) ≠ []
    exact append_ne_nil_left (append_ne_nil_left h)

theorem formatFlightResults_ne_nil (flights : List FlightOpt) (h : flights ≠ []) :
    formatFlightResults flights ≠ [] := by
  cases flights with
  | nil => exact absurd rfl h
  | cons f fs =>
    show joinSep (L "\n") (fmtLines 0 ((f :: fs).take 5)) ≠ []
    have ht : (f :: fs).take 5 = f :: fs.take 4 := rfl
    rw [ht]
    show joinSep (L "\n") (fmtFlightLine 0 f :: fmtLines 1 (fs.take 4)) ≠ []
    exact joinSep_cons_ne_nil _ _ _ (fmtFlightLine_ne_nil 0 f)

theorem generateFlightResponse_ne_nil (o : GenOutcome) (summary : Str)
    (h : summary ≠ []) : generateFlightResponse o summary ≠ [] := by
  cases o with
  | ok t =>
    unfold generateFlightResponse
    cases ht : t.isEmpty with
    | true => simpa [ht] using h
    | false => simp only [ht, if_false]; exact isEmpty_false_ne_nil ht
  | err => simpa [generateFlightResponse] using h

/-! ## Non-emptiness of extractor outputs -/

theorem natDigitsAux_ne_nil (fuel n : ℕ) : natDigitsAux (fuel + 1) n ≠ [] := by
  unfold natDigitsAux
  split
  · simp
  · simp

theorem natToChars_ne_nil (n : ℕ) : natToChars n ≠ [] := natDigitsAux_ne_nil n n

theorem intToChars_ne_nil (i : ℤ) : intToChars i ≠ [] := by
  unfold intToChars
  split
  · simp
  · exact natToChars_ne_nil _

theorem jsNumToChars_ne_nil (x : Option ℤ) : jsNumToChars x ≠ [] := by
  cases x with
  | none => decide
  | some i => exact intToChars_ne_nil i

theorem padStart2_ne_nil (s : Str) : padStart2 s ≠ [] := by
  unfold padStart2
  split
  · rename_i h
    cases s with
    | nil => simp at h
    | cons c cs => simp
  · split <;> simp

theorem pad4_ne_nil (s : Str) : pad4 s ≠ [] := by
  unfold pad4
  split
  · rename_i h
    cases s with
    | nil => simp at h
    | cons c cs => simp
  · rename_i h
    have : 4 - s.length ≥ 1 := by omega
    apply append_ne_nil_left
    cases hr : List.replicate (4 - s.length) '0' with
    | nil =>
      have := List.length_replicate (4 - s.length) '0'
      rw [hr] at this
      simp at this
      omega
    | cons c cs => simp

theorem isoOfTriple_ne_nil (t : ℤ × ℤ × ℤ) : isoOfTriple t ≠ [] := by
  unfold isoOfTriple
  repeat apply append_ne_nil_left
  exact pad4_ne_nil _

theorem normalizeTwoPart_ne_nil (now : Now) (a b : Option ℤ) :
    normalizeTwoPart now a b ≠ [] := by
  unfold normalizeTwoPart
  repeat apply append_ne_nil_left
  exact intToChars_ne_nil _

theorem normalizeThreePart_ne_nil (a b y : Option ℤ) :
    normalizeThreePart a b y ≠ [] := by
  unfold normalizeThreePart
  repeat apply append_ne_nil_left
  exact jsNumToChars_ne_nil _

theorem normalizeDate_ne_nil (now : Now) (d : Str) (h : d ≠ []) :
    normalizeDate now d ≠ [] := by
  unfold normalizeDate
  split
  · exact h
  · split
    · exact normalizeTwoPart_ne_nil _ _ _
    · exact normalizeThreePart_ne_nil _ _ _
    · exact h

theorem digits12_fst_ne_nil (s : Str) :
    ∀ pr ∈ digits12 s, (pr.1 : Str) ≠ [] := by
  intro pr hpr
  unfold digits12 at hpr
  split at hpr
  · split at hpr
    · simp at hpr
      rcases hpr with h | h <;> simp [h]
    · split at hpr
      · simp at hpr
        simp [hpr]
      · simp at hpr
  · split at hpr
    · simp at hpr
      simp [hpr]
    · simp at hpr
  · simp at hpr

theorem scanGlobal_property {α : Type} (P : α → Prop)
    (matchAt : Bool → Str → Option (α × Str))
    (H : ∀ pw s pr, matchAt pw s = some pr → P pr.1) :
    ∀ (fuel : ℕ) (pw : Bool) (s : Str) (a : α),
      a ∈ scanGlobal matchAt fuel pw s → P a := by
  intro fuel
  induction fuel with
  | zero => intro pw s a ha; simp [scanGlobal] at ha
  | succ f ih =>
    intro pw s a ha
    cases s with
    | nil => simp [scanGlobal] at ha
    | cons c rest =>
      unfold scanGlobal at ha
      cases hm : matchAt pw (c :: rest) with
      | none =>
        rw [hm] at ha
        exact ih _ _ _ ha
      | some pr =>
        rw [hm] at ha
        rcases List.mem_cons.mp ha with h | h
        · rw [h]
          exact H _ _ _ hm
        · exact ih _ _ _ h

theorem isoDateAt_fst_ne_nil (pw : Bool) (s : Str) (pr : Str × Str)
    (h : isoDateAt pw s = some pr) : pr.1 ≠ [] := by
  unfold isoDateAt at h
  split at h
  · split at h
    · simp at h
      rw [show pr = _ from h.symm]
      simp
    · simp at h
  · simp at h

theorem sepDateAt_fst_ne_nil (sep : Char) (pw : Bool) (s : Str) (pr : Str × Str)
    (h : sepDateAt sep pw s = some pr) : pr.1 ≠ [] := by
  unfold sepDateAt at h
  obtain ⟨dr1, hmem, h1⟩ := List.exists_of_findSome?_eq_some h
  have hd1 := digits12_fst_ne_nil s dr1 hmem
  split at h1
  · split at h1
    · obtain ⟨dr2, _, h2⟩ := List.exists_of_findSome?_eq_some h1
      split at h2
      · split at h2
        · rcases Option.map_eq_some'.mp h2 with ⟨dr3, _, h3⟩
          rw [← h3]
          exact append_ne_nil_left (append_ne_nil_left (append_ne_nil_left
            (append_ne_nil_left hd1)))
        · simp at h2
      · simp at h2
    · simp at h1
  · simp at h1

theorem shortDateAt_fst_ne_nil (pw : Bool) (s : Str) (pr : Str × Str)
    (h : shortDateAt pw s = some pr) : pr.1 ≠ [] := by
  unfold shortDateAt at h
  obtain ⟨dr1, hmem, h1⟩ := List.exists_of_findSome?_eq_some h
  have hd1 := digits12_fst_ne_nil s dr1 hmem
  split at h1
  · split at h1
    · obtain ⟨dr2, _, h2⟩ := List.exists_of_findSome?_eq_some h1
      simp only [Option.some.injEq] at h2
      rw [← h2]
      exact append_ne_nil_left (append_ne_nil_left hd1)
    · simp at h1
  · simp at h1

theorem numericDateMatches_ne_nil (s : Str) :
    ∀ d ∈ numericDateMatches s, d ≠ [] := by
  intro d hd
  unfold numericDateMatches at hd
  rcases List.mem_append.mp hd with hd | hd4
  · rcases List.mem_append.mp hd with hd | hd3
    · rcases List.mem_append.mp hd with hd1 | hd2
      · exact scanGlobal_property (fun x => x ≠ []) _
          (fun pw t pr h => isoDateAt_fst_ne_nil pw t pr h) _ _ _ _ hd1
      · exact scanGlobal_property (fun x => x ≠ []) _
          (fun pw t pr h => sepDateAt_fst_ne_nil '/' pw t pr h) _ _ _ _ hd2
    · exact scanGlobal_property (fun x => x ≠ []) _
        (fun pw t pr h => sepDateAt_fst_ne_nil '-' pw t pr h) _ _ _ _ hd3
  · exact scanGlobal_property (fun x => x ≠ []) _
      (fun pw t pr h => shortDateAt_fst_ne_nil pw t pr h) _ _ _ _ hd4

theorem extractMonthNameDates_ne_nil (now : Now) (s : Str) :
    ∀ d ∈ extractMonthNameDates now s, d ≠ [] := by
  intro d hd
  unfold extractMonthNameDates at hd
  obtain ⟨md, _, hf⟩ := List.mem_filterMap.mp hd
  split at hf
  · simp at hf
    rw [← hf]
    repeat apply append_ne_nil_left
    exact intToChars_ne_nil _
  · simp at hf

theorem extractDatesList_ne_nil (now : Now) (u l : Str) :
    ∀ d ∈ extractDatesList now u l, d ≠ [] := by
  intro d hd
  unfold extractDatesList at hd
  split at hd
  · simp at hd
    rw [hd]
    exact isoOfTriple_ne_nil _
  · dsimp only at hd
    split at hd
    · exact numericDateMatches_ne_nil u d hd
    · exact extractMonthNameDates_ne_nil now u d hd

theorem foldl_lookup_mem (g : Str × Str → Bool) :
    ∀ (l : List (Str × Str)) (init : Option Str) (c : Str),
      l.foldl (fun acc e => if g e then some e.2 else acc) init = some c →
      (∃ e ∈ l, c = e.2) ∨ init = some c := by
  intro l
  induction l with
  | nil => intro init c h; exact Or.inr h
  | cons e rest ih =>
    intro init c h
    simp only [List.foldl_cons] at h
    rcases ih _ _ h with ⟨e2, he2, hc⟩ | hinit
    · exact Or.inl ⟨e2, List.mem_cons_of_mem _ he2, hc⟩
    · by_cases hg : g e = true
      · rw [if_pos hg] at hinit
        simp at hinit
        exact Or.inl ⟨e, List.mem_cons_self _ _, hinit.symm⟩
      · rw [if_neg hg] at hinit
        exact Or.inr hinit

theorem cityAirportMap_codes_ne_nil : ∀ e ∈ cityAirportMap, (e.2 : Str) ≠ [] := by
  decide

theorem cityCodeFor_ne_nil (q c : Str) (h : cityCodeFor q = some c) : c ≠ [] := by
  unfold cityCodeFor at h
  rcases foldl_lookup_mem (fun e => containsSub q e.1 || containsSub e.1 q)
      cityAirportMap none c h with ⟨e, he, hc⟩ | hbad
  · rw [hc]
    exact cityAirportMap_codes_ne_nil e he
  · simp at hbad

theorem extractCityAirports_ne_nil (u : Str) (pr : Str × Str)
    (h : extractCityAirports u = some pr) : pr.1 ≠ [] ∧ pr.2 ≠ [] := by
  unfold extractCityAirports at h
  dsimp only at h
  split at h
  · rename_i r hr
    split at hr
    · rename_i xy
      split at hr
      · rename_i d a hd ha
        simp at hr
        simp at h
        rw [← h, ← hr]
        exact ⟨cityCodeFor_ne_nil _ _ hd, cityCodeFor_ne_nil _ _ ha⟩
      · simp at hr
    · simp at hr
  · split at h
    · rename_i a b rest heq
      simp only [Option.some.injEq] at h
      rw [← h]
      have hmem : ∀ x ∈ a :: b :: rest, x ≠ [] := by
        intro x hx
        rw [← heq] at hx
        obtain ⟨e, hemem, hfe⟩ := List.mem_filterMap.mp hx
        split at hfe
        · simp only [Option.some.injEq] at hfe
          rw [← hfe]
          exact cityAirportMap_codes_ne_nil e hemem
        · simp at hfe
      exact ⟨hmem a (by simp), hmem b (by simp)⟩
    · simp at h

theorem upper3At_fst_ne_nil (pw : Bool) (s : Str) (pr : Str × Str)
    (h : upper3At pw s = some pr) : pr.1 ≠ [] := by
  unfold upper3At at h
  split at h
  · simp at h
  · split at h
    · split at h
      · simp at h
        rw [show pr = _ from h.symm]
        simp
      · simp at h
    · simp at h

theorem extractAirportPair_ne_nil (u : Str) (pr : Str × Str)
    (h : extractAirportPair u = some pr) : pr.1 ≠ [] ∧ pr.2 ≠ [] := by
  unfold extractAirportPair at h
  split at h
  · rename_i a b rest heq
    simp at h
    have ha : a ∈ scanAirportCodes u := by rw [heq]; exact List.mem_cons_self _ _
    have hb : b ∈ scanAirportCodes u := by
      rw [heq]; exact List.mem_cons_of_mem _ (List.mem_cons_self _ _)
    rw [← h]
    refine ⟨?_, ?_⟩
    · exact scanGlobal_property (fun x => x ≠ []) _
        (fun pw t q hq => upper3At_fst_ne_nil pw t q hq) _ _ _ _ ha
    · exact scanGlobal_property (fun x => x ≠ []) _
        (fun pw t q hq => upper3At_fst_ne_nil pw t q hq) _ _ _ _ hb
  · exact extractCityAirports_ne_nil u pr h

theorem jsTruthyS_of_ne_nil {s : Str} (h : s ≠ []) : jsTruthyS (some s) = true := by
  cases s with
  | nil => exact absurd rfl h
  | cons c cs => simp [jsTruthyS]

/-! ## C1, C2, C5 -/

/-- C1: for every pair of (possibly floor-boosted) scores, the router picks
the flight assistant iff `flightScore ≥ dynamicThreshold ∧ flightScore >
personalScore`; in every other case (ties, both below threshold, …) it
picks the personal assistant. -/
theorem router_selects_flight_iff_threshold_and_greater
    (f p : ℚ) :
    (selectAgent f p = Agent.flight ↔
      (f ≥ getDynamicThreshold f p ∧ f > p)) ∧
    (selectAgent f p = Agent.personal ↔
      ¬ (f ≥ getDynamicThreshold f p ∧ f > p)) := by
  unfold selectAgent
  by_cases h : f ≥ getDynamicThreshold f p ∧ f > p <;> simp [h]

/-- C2: the dynamic threshold is 0.5 when the scores differ by less than
0.1, 0.25 when they differ by more than 0.3, and 0.3 otherwise — including
the boundary differences of exactly 0.1 and exactly 0.3. -/
theorem dynamic_threshold_cases (f p : ℚ) :
    (|f - p| < 1/10 → getDynamicThreshold f p = 1/2) ∧
    (|f - p| > 3/10 → getDynamicThreshold f p = 1/4) ∧
    (1/10 ≤ |f - p| → |f - p| ≤ 3/10 → getDynamicThreshold f p = 3/10) := by
  unfold getDynamicThreshold
  refine ⟨fun h => ?_, fun h => ?_, fun h1 h2 => ?_⟩
  · rw [if_pos h]
  · have hx : ¬ |f - p| < 1/10 := by linarith
    rw [if_neg hx, if_pos h]
  · have hx : ¬ |f - p| < 1/10 := by linarith
    have hy : ¬ |f - p| > 3/10 := by linarith
    rw [if_neg hx, if_neg hy]

/-- Witness for `dynamic_threshold_cases` at concrete score pairs covering
all three branches. -/
theorem dynamic_threshold_cases_witness :
    getDynamicThreshold (1/2) (45/100) = 1/2 ∧
    getDynamicThreshold (9/10) (2/10) = 1/4 ∧
    getDynamicThreshold (1/2) (3/10) = 3/10 := by
  refine ⟨(dynamic_threshold_cases (1/2) (45/100)).1 (by with_unfolding_all decide),
          (dynamic_threshold_cases (9/10) (2/10)).2.1 (by with_unfolding_all decide),
          (dynamic_threshold_cases (1/2) (3/10)).2.2 (by with_unfolding_all decide)
            (by with_unfolding_all decide)⟩

/-- C5: in a flight conversation the boosted flight score is
`max s 0.7`, in a personal conversation the boosted personal score is
`max s 0.6`, and both floors are monotone — for every score and every
conversation state the boosted value is at least the raw value, so the
conversation-state bias never lowers a score. -/
theorem conversation_floor_boost_spec (s : ℚ) (b : Bool) :
    boostFlightScore true s = max s (7/10) ∧
    boostPersonalScore true s = max s (6/10) ∧
    s ≤ boostFlightScore b s ∧
    s ≤ boostPersonalScore b s := by
  unfold boostFlightScore boostPersonalScore
  refine ⟨rfl, rfl, ?_, ?_⟩ <;> cases b <;> simp [le_max_left]

/-! ## C6: the extractor is total and all-or-nothing -/

/-- C6: the Parameter Extractor returns a value exactly when an airport
pair and at least one date were resolved from the text; the returned
record then has all three of departure, arrival and outbound date
present.  Whenever any of the three is missing, the result is the
embedding's `Option.none` (the source's `null`) — an ordinary value, not
an error. -/
theorem extractor_some_iff_all_resolved (now : Now) (s : Str) :
    ((extractFlightParams now s).isSome = true ↔
      ((extractAirportPair s).isSome = true ∧
        extractDatesList now s (lowerS s) ≠ [])) ∧
    (∀ p, extractFlightParams now s = some p →
      p.departureId.isSome = true ∧ p.arrivalId.isSome = true ∧
        p.outboundDate.isSome = true) := by
  unfold extractFlightParams
  dsimp only
  cases hpair : extractAirportPair s with
  | none => simp [jsTruthyS]
  | some pr =>
    obtain ⟨h1, h2⟩ := extractAirportPair_ne_nil s pr hpair
    cases hdates : extractDatesList now s (lowerS s) with
    | nil => simp [jsTruthyS]
    | cons d ds =>
      have hd : d ≠ [] :=
        extractDatesList_ne_nil now s (lowerS s) d (by rw [hdates]; simp)
      have hnd := normalizeDate_ne_nil now d hd
      simp [jsTruthyS_of_ne_nil h1, jsTruthyS_of_ne_nil h2, jsTruthyS_of_ne_nil hnd]

/-- Witness: the C6 theorem applied to the spec's concrete extractor
example, discharging the `some`-result hypothesis there. -/
theorem extractor_some_iff_all_resolved_witness :
    (({ departureId := some (L "PEK"), arrivalId := some (L "AUS"),
        outboundDate := some (L "2025-10-18"), returnDate := some (L "2025-10-24"),
        currency := none, hl := none } : FlightParams).departureId.isSome = true) ∧
    (({ departureId := some (L "PEK"), arrivalId := some (L "AUS"),
        outboundDate := some (L "2025-10-18"), returnDate := some (L "2025-10-24"),
        currency := none, hl := none } : FlightParams).arrivalId.isSome = true) ∧
    (({ departureId := some (L "PEK"), arrivalId := some (L "AUS"),
        outboundDate := some (L "2025-10-18"), returnDate := some (L "2025-10-24"),
        currency := none, hl := none } : FlightParams).outboundDate.isSome = true) :=
  (extractor_some_iff_all_resolved specNow specPekAusExample).2 _
    (by with_unfolding_all decide)

/-! ## C8: the spec's extractor example -/

/-- C8: on `"Find flights from PEK to AUS on 2025-10-18 returning
2025-10-24"` the extractor returns, for every current date, a record with
departure `PEK`, arrival `AUS`, outbound date `2025-10-18` and return
date `2025-10-24`. -/
theorem extractor_pek_aus_example (now : Now) :
    (extractFlightParams now specPekAusExample).map
      (fun p => (p.departureId, p.arrivalId, p.outboundDate, p.returnDate)) =
    some (some (L "PEK"), some (L "AUS"),
      some (L "2025-10-18"), some (L "2025-10-24")) := by
  with_unfolding_all rfl

/-! ## C3: the multi-route guard -/

/-- C3 counterexample: on the spec's own multi-route example input the
multi-route detector fires (three distinct routes), yet the system does
not short-circuit to the disambiguation reply: `chat` runs the
confidence scorers first and routes the message to the *personal*
assistant, so the reply is the personal agent's answer, not the
disambiguation text.  The guard only runs inside the flight agent, after
scoring and routing. -/
theorem multi_route_guard_counterexample :
    hasMultipleFlightRoutes specMultiRouteExample = true ∧
    (chatStep plainOracles specNow initialRouterState specMultiRouteExample).2.agent =
      L "Personal Assistant" ∧
    (chatStep plainOracles specNow initialRouterState specMultiRouteExample).2.response ≠
      multiRouteMessage := by
  refine ⟨?_, ?_, ?_⟩ <;> with_unfolding_all decide

/-- C3 (amended): whenever the multi-route detector fires on a message
that reaches the flight agent, `processFlightQuery` returns the
disambiguation reply immediately — its consultation trace is empty, so
neither the parameter extractor nor the search nor any AI call happens —
and the conversation context is untouched.  (The detector sits inside
the flight agent, after the scorer has already been consulted for
routing; a multi-route message may instead be routed to the personal
assistant, as the counterexample shows.) -/
theorem multi_route_guard_in_flight_agent
    (o : FlightOracles) (now : Now) (ctx : FlightParams) (message : Str)
    (history : List HistEntry)
    (h : hasMultipleFlightRoutes message = true) :
    processFlightQuery o now ctx message history =
      ({ blankResponse with
          message := multiRouteMessage
          requiresMoreInfo := some true
          suggestedQuestions := multiRouteSuggestedQuestions },
        ctx, []) := by
  unfold processFlightQuery
  simp [h]

/-- Witness: the amended C3 theorem applied to the spec's example input. -/
theorem multi_route_guard_in_flight_agent_witness :
    hasMultipleFlightRoutes specMultiRouteExample = true ∧
    processFlightQuery plainOracles.flightOracles specNow emptyParams
        specMultiRouteExample [] =
      ({ blankResponse with
          message := multiRouteMessage
          requiresMoreInfo := some true
          suggestedQuestions := multiRouteSuggestedQuestions },
        emptyParams, []) :=
  ⟨by with_unfolding_all decide,
   multi_route_guard_in_flight_agent plainOracles.flightOracles specNow emptyParams
     specMultiRouteExample [] (by with_unfolding_all decide)⟩

/-! ## C4: flight selection at the base threshold -/

/-- C4 counterexample: the message `"layover"` has flight score 0.35 ≥ 0.3,
strictly above its personal score 0.3, with no personal-conversation
floor (the history is empty), yet the router selects the personal
assistant — the dynamic threshold is 0.5 here because the two scores
differ by less than 0.1. -/
theorem flight_above_base_threshold_counterexample :
    isOngoingPersonalConversation ([] : List HistEntry) = false ∧
    calculateFlightConfidence (L "layover") = 7/20 ∧
    calculatePersonalConfidence (L "layover") = 3/10 ∧
    calculateFlightConfidence (L "layover") ≥ 3/10 ∧
    calculateFlightConfidence (L "layover") > calculatePersonalConfidence (L "layover") ∧
    (chatStep plainOracles specNow initialRouterState (L "layover")).2.agent =
      L "Personal Assistant" := by
  refine ⟨?_, ?_, ?_, ?_, ?_, ?_⟩ <;> with_unfolding_all decide

/-- C4 (amended): for every message whose floor-boosted flight score is at
least the *dynamic threshold* (not merely the 0.3 base threshold) and
strictly greater than its floor-boosted personal score, the router
selects the flight assistant. -/
theorem router_selects_flight_when_dynamic_threshold_met
    (o : ChatOracles) (now : Now) (st : RouterState) (message : Str)
    (h1 : boostFlightScore (isOngoingFlightConversation st.history)
            (calculateFlightConfidence message) ≥
          getDynamicThreshold
            (boostFlightScore (isOngoingFlightConversation st.history)
              (calculateFlightConfidence message))
            (boostPersonalScore (isOngoingPersonalConversation st.history)
              (calculatePersonalConfidence message)))
    (h2 : boostFlightScore (isOngoingFlightConversation st.history)
            (calculateFlightConfidence message) >
          boostPersonalScore (isOngoingPersonalConversation st.history)
            (calculatePersonalConfidence message)) :
    (chatStep o now st message).2.agent = L "Flight Assistant" := by
  have hsel : selectAgent
      (boostFlightScore (isOngoingFlightConversation st.history)
        (calculateFlightConfidence message))
      (boostPersonalScore (isOngoingPersonalConversation st.history)
        (calculatePersonalConfidence message)) = Agent.flight := by
    unfold selectAgent
    rw [if_pos ⟨h1, h2⟩]
  unfold chatStep
  dsimp only
  rw [hsel]

/-- Witness: the single word `"flight"` scores 0.4 against 0, meets the
lenient 0.25 threshold, and is routed to the flight assistant. -/
theorem router_selects_flight_when_dynamic_threshold_met_witness :
    (chatStep plainOracles specNow initialRouterState (L "flight")).2.agent =
      L "Flight Assistant" :=
  router_selects_flight_when_dynamic_threshold_met plainOracles specNow
    initialRouterState (L "flight")
    (by with_unfolding_all decide) (by with_unfolding_all decide)

/-! ## C9: no failure escapes `processFlightQuery` -/

/-- C9: whatever the outcomes of the downstream calls (flight-search API
error response, network failure, any other thrown error, AI generation
failure or empty completion), `processFlightQuery` returns an ordinary
response value whose user-facing message is non-empty.  The embedding is
total — every failure outcome of the oracles is handled at its call
site, which is how the source's `try`/`catch` blocks leave no path that
re-throws. -/
theorem process_flight_query_always_user_facing_message
    (o : FlightOracles) (now : Now) (ctx : FlightParams) (message : Str)
    (history : List HistEntry) :
    (processFlightQuery o now ctx message history).1.message ≠ [] := by
  unfold processFlightQuery
  dsimp only
  split
  · show multiRouteMessage ≠ []
    decide
  · split
    · exact getAIFlightHelp_ne_nil _
    · split
      · exact getContextualClarification_ne_nil _ _
      · split
        · exact handleFlightSearchError_ne_nil _
        · split
          · apply append_ne_nil_left
            repeat apply append_ne_nil_left
            decide
          · rename_i hne
            apply generateFlightResponse_ne_nil
            apply formatFlightResults_ne_nil
            intro hnil
            rw [hnil] at hne
            exact hne rfl

/-! ## C10: history bookkeeping of `chat` -/

theorem chatStep_history_shape (o : ChatOracles) (now : Now) (st : RouterState)
    (m : Str) :
    ∃ r, (chatStep o now st m).1.history =
        st.history ++
          [{ role := L "user", message := m }, { role := L "assistant", message := r }] ∧
      (chatStep o now st m).2.response = r := by
  unfold chatStep
  dsimp only
  cases hsel :
      selectAgent
        (boostFlightScore (isOngoingFlightConversation st.history)
          (calculateFlightConfidence m))
        (boostPersonalScore (isOngoingPersonalConversation st.history)
          (calculatePersonalConfidence m)) with
  | flight =>
    refine ⟨_, ?_, rfl⟩
    simp [updateStateFlight]
  | personal =>
    refine ⟨_, ?_, rfl⟩
    simp [updateStatePersonal]

theorem rolesFold_append_two (h : List HistEntry) (m r : Str)
    (hh : rolesFold h = (true, true)) :
    rolesFold (h ++
      [{ role := L "user", message := m }, { role := L "assistant", message := r }]) =
      (true, true) := by
  unfold rolesFold at hh ⊢
  rw [List.foldl_append, hh]
  with_unfolding_all rfl

theorem chatRun_history (now : Now) (inputs : List (Str × ChatOracles)) :
    ∀ st : RouterState,
      (chatRun now st inputs).history.length = st.history.length + 2 * inputs.length ∧
      (rolesFold st.history = (true, true) →
        rolesFold (chatRun now st inputs).history = (true, true)) := by
  induction inputs with
  | nil => intro st; simp [chatRun]
  | cons p rest ih =>
    intro st
    obtain ⟨m, oq⟩ := p
    obtain ⟨r, hr, _⟩ := chatStep_history_shape oq now st m
    have hrun : chatRun now st ((m, oq) :: rest) =
        chatRun now (chatStep oq now st m).1 rest := rfl
    constructor
    · rw [hrun, (ih _).1, hr]
      simp [List.length_append]
      ring
    · intro hinv
      rw [hrun]
      exact (ih _).2 (by rw [hr]; exact rolesFold_append_two _ _ _ hinv)

/-- C10: every completed `chat` call appends exactly two history entries,
first the user message and then the assistant reply, leaving all earlier
entries unchanged (the new history is the old one with the two entries
appended); consequently, starting from a fresh router, after `n`
completed calls the history has exactly `2n` entries whose roles strictly
alternate user/assistant. -/
theorem chat_appends_two_history_entries_alternating :
    (∀ (o : ChatOracles) (now : Now) (st : RouterState) (m : Str),
      ∃ r, (chatStep o now st m).1.history =
          st.history ++
            [{ role := L "user", message := m },
             { role := L "assistant", message := r }] ∧
        (chatStep o now st m).2.response = r) ∧
    (∀ (now : Now) (inputs : List (Str × ChatOracles)),
      (chatRun now initialRouterState inputs).history.length = 2 * inputs.length ∧
      (rolesFold (chatRun now initialRouterState inputs).history).1 = true) := by
  constructor
  · exact chatStep_history_shape
  · intro now inputs
    have h := chatRun_history now inputs initialRouterState
    refine ⟨?_, ?_⟩
    · have := h.1
      simpa [initialRouterState] using this
    · have := h.2 (by with_unfolding_all rfl)
      rw [this]

/-! ## Calendar arithmetic lemmas (for C7) -/

theorem gyear_diff (y : ℤ) :
    365 ≤ gyear y - gyear (y - 1) ∧ gyear y - gyear (y - 1) ≤ 366 := by
  unfold gyear
  omega

theorem daysFromCivil_eq_gyear_high (y m d : ℤ) (h3 : 3 ≤ m) :
    daysFromCivil y m d =
      gyear y + (153 * ((m + 9) % 12) + 2) / 5 + d - 1 - 719468 := by
  unfold daysFromCivil gyear
  have hif : ¬ (m ≤ 2) := by omega
  rw [if_neg hif]
  dsimp only
  omega

theorem daysFromCivil_eq_gyear_low (y m d : ℤ) (h2 : m ≤ 2) :
    daysFromCivil y m d =
      gyear (y - 1) + (153 * ((m + 9) % 12) + 2) / 5 + d - 1 - 719468 := by
  unfold daysFromCivil gyear
  rw [if_pos h2]
  dsimp only
  omega

theorem doy_bounds_high (m : ℤ) (h3 : 3 ≤ m) (h12 : m ≤ 12) :
    0 ≤ (153 * ((m + 9) % 12) + 2) / 5 ∧ (153 * ((m + 9) % 12) + 2) / 5 ≤ 275 := by
  interval_cases m <;> decide

theorem doy_bounds_low (m : ℤ) (h1 : 1 ≤ m) (h2 : m ≤ 2) :
    306 ≤ (153 * ((m + 9) % 12) + 2) / 5 ∧ (153 * ((m + 9) % 12) + 2) / 5 ≤ 337 := by
  interval_cases m <;> decide

/-- Any valid calendar day of March-year `y` is at most 305 days past the
`gyear` mark. -/
theorem todayDay_le (y tm td : ℤ) (h1 : 1 ≤ tm) (h2 : tm ≤ 12)
    (h3 : 1 ≤ td) (h4 : td ≤ 31) :
    daysFromCivil y tm td ≤ gyear y + 305 - 719468 := by
  rcases le_or_lt tm 2 with hle | hgt
  · rw [daysFromCivil_eq_gyear_low y tm td hle]
    have hb := doy_bounds_low tm h1 hle
    have hg := gyear_diff y
    omega
  · rw [daysFromCivil_eq_gyear_high y tm td (by omega)]
    have hb := doy_bounds_high tm (by omega) h2
    omega

/-- Any calendar day of the following year lies at least 306 days past
the current year's `gyear` mark. -/
theorem nextYearDay_ge (y m d : ℤ) (h1 : 1 ≤ m) (h2 : m ≤ 12) (h3 : 1 ≤ d) :
    gyear y + 306 - 719468 ≤ daysFromCivil (y + 1) m d := by
  rcases le_or_lt m 2 with hle | hgt
  · rw [daysFromCivil_eq_gyear_low (y + 1) m d hle]
    have hb := doy_bounds_low m h1 hle
    have he : y + 1 - 1 = y := by ring
    rw [he]
    omega
  · rw [daysFromCivil_eq_gyear_high (y + 1) m d (by omega)]
    have hb := doy_bounds_high m (by omega) h2
    have hg := gyear_diff (y + 1)
    have he : y + 1 - 1 = y := by ring
    rw [he] at hg
    omega

/-- Today is strictly before any calendar date of the following year. -/
theorem today_lt_next_year (now : Now) (m d : ℤ)
    (ht1 : 1 ≤ now.month) (ht2 : now.month ≤ 12) (ht3 : 1 ≤ now.day)
    (ht4 : now.day ≤ 31) (h1 : 1 ≤ m) (h2 : m ≤ 12) (h3 : 1 ≤ d) :
    nowDayNumber now < daysFromCivil (now.year + 1) m d := by
  have ha := todayDay_le now.year now.month now.day ht1 ht2 ht3 ht4
  have hb := nextYearDay_ge now.year m d h1 h2 h3
  unfold nowDayNumber
  omega

/-- For an in-range month, `new Date(y, m-1, d)` needs no month
normalization. -/
theorem jsDateDay_of_month_range (y m d : ℤ) (h1 : 1 ≤ m) (h2 : m ≤ 12) :
    jsDateDay y (m - 1) d = daysFromCivil y m d := by
  unfold jsDateDay
  have e1 : (m - 1) / 12 = 0 := by omega
  have e2 : (m - 1) % 12 = m - 1 := by omega
  rw [e1, e2]
  have e3 : y + 0 = y := by ring
  have e4 : m - 1 + 1 = m := by ring
  rw [e3, e4]

/-- The roll-forward of the two-part branch never produces a date before
the current day. -/
theorem twoPart_not_past (now : Now) (m d : ℤ)
    (ht1 : 1 ≤ now.month) (ht2 : now.month ≤ 12) (ht3 : 1 ≤ now.day)
    (ht4 : now.day ≤ 31) (hm1 : 1 ≤ m) (hm2 : m ≤ 12) (hd1 : 1 ≤ d) :
    ¬ (daysFromCivil
        (now.year + (if jsDateLtNow now.year (m - 1) d now then 1 else 0)) m d <
        nowDayNumber now) := by
  cases hlt : jsDateLtNow now.year (m - 1) d now with
  | false =>
    unfold jsDateLtNow at hlt
    rw [jsDateDay_of_month_range now.year m d hm1 hm2] at hlt
    simp only [Bool.or_eq_false_iff, decide_eq_false_iff_not] at hlt
    have hx := hlt.1
    simp only [Bool.false_eq_true, if_false, add_zero]
    exact hx
  | true =>
    simp only [if_true]
    have := today_lt_next_year now m d ht1 ht2 ht3 ht4 hm1 hm2 hd1
    omega

/-! ## C7: date normalization -/

/-- C7 counterexample: with the current date 2025-10-11, the accepted
three-part date string `"10-18-2024"` normalizes to `"2024-10-18"` — a
resolved date earlier than the current date that is *not* rolled forward
by one year, so the normalized output denotes a past date. -/
theorem normalize_date_past_counterexample :
    normalizeDate specNow (L "10-18-2024") = L "2024-10-18" ∧
    daysFromCivil 2024 10 18 < nowDayNumber specNow := by
  constructor
  · with_unfolding_all decide
  · with_unfolding_all decide

/-- C7 (amended): (i) in two-part dates the part exceeding 12 is taken as
the day, the first part being the day when neither exceeds 12 (the same
disambiguation applies to the day/month parts of three-part dates);
(ii) three-part years below 100 are promoted by adding 2000; (iii) a
*two-part* resolved date earlier than the current moment is rolled
forward by one year and — for in-range day/month parts — a two-part
output never denotes a date before the current day.  Three-part and
already-ISO dates keep the year they state, so those outputs can denote
past dates (see the counterexample). -/
theorem normalize_date_rules :
    (∀ a b : ℤ,
      (12 < a → dayMonthOf (some a) (some b) = (some a, some b)) ∧
      (a ≤ 12 → 12 < b → dayMonthOf (some a) (some b) = (some b, some a)) ∧
      (a ≤ 12 → b ≤ 12 → dayMonthOf (some a) (some b) = (some a, some b))) ∧
    (∀ a b y : ℤ, y < 100 →
      normalizeThreePart (some a) (some b) (some y) =
        intToChars (y + 2000) ++ ['-'] ++
          padStart2 (jsNumToChars (dayMonthOf (some a) (some b)).2) ++ ['-'] ++
          padStart2 (jsNumToChars (dayMonthOf (some a) (some b)).1)) ∧
    (∀ (now : Now) (a b d m : ℤ),
      1 ≤ now.month → now.month ≤ 12 → 1 ≤ now.day → now.day ≤ 31 →
      dayMonthOf (some a) (some b) = (some d, some m) →
      1 ≤ m → m ≤ 12 → 1 ≤ d → d ≤ 31 →
      normalizeTwoPart now (some a) (some b) =
        intToChars
            (now.year + (if jsDateLtNow now.year (m - 1) d now then 1 else 0)) ++
          ['-'] ++ padStart2 (intToChars m) ++ ['-'] ++ padStart2 (intToChars d) ∧
      ¬ (daysFromCivil
          (now.year + (if jsDateLtNow now.year (m - 1) d now then 1 else 0)) m d <
          nowDayNumber now)) := by
  refine ⟨?_, ?_, ?_⟩
  · intro a b
    refine ⟨fun h => ?_, fun h1 h2 => ?_, fun h1 h2 => ?_⟩
    · unfold dayMonthOf
      rw [if_pos (show jsGtNum (some a) 12 = true by simp [jsGtNum]; omega)]
    · unfold dayMonthOf
      rw [if_neg (show ¬ jsGtNum (some a) 12 = true by simp [jsGtNum]; omega),
        if_pos (show jsGtNum (some b) 12 = true by simp [jsGtNum]; omega)]
    · unfold dayMonthOf
      rw [if_neg (show ¬ jsGtNum (some a) 12 = true by simp [jsGtNum]; omega),
        if_neg (show ¬ jsGtNum (some b) 12 = true by simp [jsGtNum]; omega)]
  · intro a b y hy
    unfold normalizeThreePart
    rw [if_pos (show jsLtNum (some y) 100 = true by simp [jsLtNum]; omega)]
    rfl
  · intro now a b d m ht1 ht2 ht3 ht4 hdm hm1 hm2 hd1 hd2
    constructor
    · unfold normalizeTwoPart
      dsimp only
      rw [hdm]
      rfl
    · exact twoPart_not_past now m d ht1 ht2 ht3 ht4 hm1 hm2 hd1

/-- Witness: the amended C7 theorem applied at concrete inputs — the
two-part date `25-12` on 2025-10-11 (day 25, month 12, not rolled), and
the three-part year promotion at year part 24. -/
theorem normalize_date_rules_witness :
    dayMonthOf (some 25) (some 12) = (some (25 : ℤ), some (12 : ℤ)) ∧
    normalizeThreePart (some 10) (some 18) (some 24) =
      intToChars ((24 : ℤ) + 2000) ++ ['-'] ++
        padStart2 (jsNumToChars (dayMonthOf (some 10) (some 18)).2) ++ ['-'] ++
        padStart2 (jsNumToChars (dayMonthOf (some 10) (some 18)).1) ∧
    (normalizeTwoPart specNow (some 25) (some 12) =
      intToChars
          (specNow.year + (if jsDateLtNow specNow.year (12 - 1) 25 specNow then 1 else 0)) ++
        ['-'] ++ padStart2 (intToChars 12) ++ ['-'] ++ padStart2 (intToChars 25) ∧
      ¬ (daysFromCivil
          (specNow.year + (if jsDateLtNow specNow.year (12 - 1) 25 specNow then 1 else 0))
          12 25 < nowDayNumber specNow)) :=
  ⟨(normalize_date_rules.1 25 12).1 (by decide),
   normalize_date_rules.2.1 10 18 24 (by decide),
   normalize_date_rules.2.2 specNow 25 12 25 12 (by decide) (by decide) (by decide)
     (by decide) ((normalize_date_rules.1 25 12).1 (by decide)) (by decide) (by decide)
     (by decide) (by decide)⟩

end M32
